import Mathlib

/-!
Notifiche mensili: the dispatch loop of `index.js`

A shallow embedding of `leggiUtentiDaExcel`, `inviaEmail`, `inviaWhatsApp` and
`inviaNotificheMensili`.  The asynchronous function is modelled sequentially (it awaits
every call before going on), its effects are recorded as a chronological list of events,
and the external libraries (file system, SMTP transport, chat client) are parameters.
-/

namespace Notifiche

/-! ## Values read from the sheet -/

/-- Value of one cell of a row object produced by `XLSX.utils.sheet_to_json`: the key is
missing (`undefined`), or it holds a string, a number or a boolean.  Numbers are kept as
integers: the program only tests them for truthiness and passes them on unchanged. -/
inductive Cell where
  | absent
  | str (s : String)
  | num (n : Int)
  | bool (b : Bool)
  deriving DecidableEq, Repr

/-- JavaScript truthiness of a cell, as used by `||` and `!`. -/
def Cell.truthy : Cell → Bool
  | .absent => false
  | .str s => s ≠ ""
  | .num n => n ≠ 0
  | .bool b => b

/-- The expression `c || 'd'` for a cell `c` and a string literal `d`. -/
def Cell.oppure (c : Cell) (d : String) : Cell :=
  if c.truthy then c else .str d

/-- One row of the sheet, with the five columns named in `CONFIG.columns`. -/
structure Utente where
  Email : Cell
  Telefono : Cell
  Nome : Cell
  Dati : Cell
  Canale : Cell
  deriving DecidableEq, Repr

/-- `String.prototype.toLowerCase`, on the ASCII letters.  Only the comparisons of the
result with `''`, `'email'` and `'whatsapp'` matter to the control flow, and no
non-ASCII character lowercases to a letter of those two words, so those comparisons
agree with ECMAScript. -/
def toLowerCase (s : String) : String :=
  ⟨s.data.map Char.toLower⟩

/-- The expression `utente[CONFIG.columns.canale]?.toLowerCase() || 'email'` of line 217.
`none` stands for the `TypeError` raised when the cell is present but is not a string
(a number or a boolean has no `toLowerCase` method). -/
def canale (utente : Utente) : Option String :=
  match utente.Canale with
  | .absent => some "email"
  | .str s => some (if toLowerCase s = "" then "email" else toLowerCase s)
  | .num _ => none
  | .bool _ => none

/-- The local `nome` of the loop body: `utente[CONFIG.columns.nome] || 'Utente'`. -/
def nome (utente : Utente) : Cell :=
  utente.Nome.oppure "Utente"

/-- The local `dati` of the loop body:
`utente[CONFIG.columns.dati] || 'Nessun dato disponibile'`. -/
def dati (utente : Utente) : Cell :=
  utente.Dati.oppure "Nessun dato disponibile"

/-! ## Events -/

/-- The distinct messages handed to `logger.info` and `logger.error`. -/
inductive Messaggio where
  | avvio
  | letti (n : Nat)
  | erroreLettura
  | nessunUtente
  | emailInviata (destinatario : Cell)
  | erroreEmail (destinatario : Cell)
  | whatsappInviato (numero : Cell)
  | erroreWhatsApp (numero : Cell)
  | emailNonValida (nome : Cell)
  | telefonoNonValido (nome : Cell)
  | canaleNonSupportato (canale : String) (nome : Cell)
  | completato
  | statistiche (emailInviate whatsappInviati errori : Nat)
  deriving DecidableEq, Repr

/-- Observable effects of a run, in the order in which they happen. -/
inductive Evento where
  /-- `inviaEmail(destinatario, nome, dati)` is entered. -/
  | inviaEmail (destinatario nome dati : Cell)
  /-- `emailTransporter.sendMail` is called; the body is rendered from `nome`, `dati`. -/
  | sendMail (destinatario nome dati : Cell)
  /-- `inviaWhatsApp(numero, nome, dati)` is entered. -/
  | inviaWhatsApp (numero nome dati : Cell)
  /-- `whatsappClient.sendMessage` is called. -/
  | sendMessage (numero nome dati : Cell)
  /-- The promise around `setTimeout(resolve, ms)` is awaited. -/
  | pausa (ms : Nat)
  /-- A call of `logger.info`. -/
  | info (m : Messaggio)
  /-- A call of `logger.error`. -/
  | errore (m : Messaggio)
  deriving DecidableEq, Repr

/-! ## External collaborators -/

/-- The global `whatsappClient` when it is not `null`; `info` tells whether its `info`
property is set. -/
structure ClientWhatsApp where
  info : Bool
  deriving DecidableEq, Repr

/-- Behaviour of the two transports during one run.  The index is the position of the
record being processed (the loop makes at most one transport call per record), so a
choice of these functions fixes the outcome of every call independently.
`sendMail` and `sendMessage` tell whether the promise resolves (`true`) or rejects
(`false`); `whatsappClient` is the value of the global at that moment (`none` = `null`). -/
structure Mondo where
  sendMail : Nat → Cell → Cell → Cell → Bool
  whatsappClient : Nat → Option ClientWhatsApp
  sendMessage : Nat → Cell → Cell → Cell → Bool

/-- A workbook as `XLSX.readFile` returns it: the sheet names, and for every sheet the
rows `XLSX.utils.sheet_to_json` makes of it. -/
structure Workbook where
  SheetNames : List String
  Sheets : String → List Utente

/-- What the file system answers for `CONFIG.excelFile`: whether the file exists, and
what `XLSX.readFile` yields (`none` when it throws). -/
structure Disco where
  existsSync : Bool
  readFile : Option Workbook

/-- The constant `CONFIG.sheetName`. -/
def sheetName : String := "notifiche"

/-! ## The functions of `index.js` -/

/-- The function `leggiUtentiDaExcel`: the rows of the configured sheet, or the empty list
(with the error logged) when the file is missing, unreadable or lacks the sheet. -/
def leggiUtentiDaExcel (d : Disco) : List Utente × List Evento :=
  if !d.existsSync then ([], [.errore .erroreLettura])
  else
    match d.readFile with
    | none => ([], [.errore .erroreLettura])
    | some workbook =>
      if !workbook.SheetNames.contains sheetName then ([], [.errore .erroreLettura])
      else
        let utenti := workbook.Sheets sheetName
        (utenti, [.info (.letti utenti.length)])

/-- The function `inviaEmail`: its boolean result and the events it causes.  The whole
body is inside `try`/`catch`, so a rejected `sendMail` gives `false`. -/
def inviaEmail (w : Mondo) (i : Nat) (destinatario nome dati : Cell) : Bool × List Evento :=
  if w.sendMail i destinatario nome dati then
    (true, [.inviaEmail destinatario nome dati, .sendMail destinatario nome dati,
            .info (.emailInviata destinatario)])
  else
    (false, [.inviaEmail destinatario nome dati, .sendMail destinatario nome dati,
             .errore (.erroreEmail destinatario)])

/-- The test `!whatsappClient || !whatsappClient.info` of `inviaWhatsApp`. -/
def nonPronto : Option ClientWhatsApp → Bool
  | none => true
  | some c => !c.info

/-- The function `inviaWhatsApp`: its boolean result and the events it causes.  The
error thrown when the client is not ready and a rejected `sendMessage` are both caught
inside the function and give `false`. -/
def inviaWhatsApp (w : Mondo) (i : Nat) (numero nome dati : Cell) : Bool × List Evento :=
  if nonPronto (w.whatsappClient i) then
    (false, [.inviaWhatsApp numero nome dati, .errore (.erroreWhatsApp numero)])
  else if w.sendMessage i numero nome dati then
    (true, [.inviaWhatsApp numero nome dati, .sendMessage numero nome dati,
            .info (.whatsappInviato numero)])
  else
    (false, [.inviaWhatsApp numero nome dati, .sendMessage numero nome dati,
             .errore (.erroreWhatsApp numero)])

/-- Label of the branch of the loop body that settled a record. -/
inductive Esito where
  | emailInviata
  | whatsappInviato
  | invioFallito
  | validazioneFallita
  | canaleNonSupportato
  deriving DecidableEq, Repr

/-- The variables of `inviaNotificheMensili` while the loop runs: the three counters and
the events so far.  `esiti` is a ghost variable: the branch taken for every record
processed so far. -/
structure Stato where
  emailInviate : Nat
  whatsappInviati : Nat
  errori : Nat
  eventi : List Evento
  esiti : List Esito
  deriving DecidableEq, Repr

/-- The delay of line 250, in milliseconds. -/
def ritardo : Nat := 300000

/-- One iteration of the `for` loop (lines 215 to 254) on the record at position `i`.
`Except.error` is an exception leaving the loop, with the variables as they were when
it was raised: only line 217 can raise one, since it stands before the `try`, and
nothing inside the `try` throws (both adapters catch their own errors). -/
def processaUtente (w : Mondo) (i : Nat) (utente : Utente) (s : Stato) :
    Except Stato Stato :=
  match canale utente with
  | none => .error s
  | some c =>
    if c = "email" then
      let email := utente.Email
      if !email.truthy then
        .ok { s with errori := s.errori + 1,
                     eventi := s.eventi ++ [.errore (.emailNonValida (nome utente))],
                     esiti := s.esiti ++ [.validazioneFallita] }
      else
        let r := inviaEmail w i email (nome utente) (dati utente)
        if r.1 then
          .ok { s with emailInviate := s.emailInviate + 1,
                       eventi := s.eventi ++ r.2 ++ [.pausa ritardo],
                       esiti := s.esiti ++ [.emailInviata] }
        else
          .ok { s with errori := s.errori + 1,
                       eventi := s.eventi ++ r.2 ++ [.pausa ritardo],
                       esiti := s.esiti ++ [.invioFallito] }
    else if c = "whatsapp" then
      let telefono := utente.Telefono
      if !telefono.truthy then
        .ok { s with errori := s.errori + 1,
                     eventi := s.eventi ++ [.errore (.telefonoNonValido (nome utente))],
                     esiti := s.esiti ++ [.validazioneFallita] }
      else
        let r := inviaWhatsApp w i telefono (nome utente) (dati utente)
        if r.1 then
          .ok { s with whatsappInviati := s.whatsappInviati + 1,
                       eventi := s.eventi ++ r.2 ++ [.pausa ritardo],
                       esiti := s.esiti ++ [.whatsappInviato] }
        else
          .ok { s with errori := s.errori + 1,
                       eventi := s.eventi ++ r.2 ++ [.pausa ritardo],
                       esiti := s.esiti ++ [.invioFallito] }
    else
      .ok { s with errori := s.errori + 1,
                   eventi := s.eventi ++ [.errore (.canaleNonSupportato c (nome utente)),
                                          .pausa ritardo],
                   esiti := s.esiti ++ [.canaleNonSupportato] }

/-- The `for (const utente of utenti)` loop, from position `i` on. -/
def ciclo (w : Mondo) : Nat → List Utente → Stato → Except Stato Stato
  | _, [], s => .ok s
  | i, utente :: resto, s =>
    match processaUtente w i utente s with
    | .error e => .error e
    | .ok s' => ciclo w (i + 1) resto s'

/-- How a call of `inviaNotificheMensili` ends. -/
inductive Risultato where
  /-- The early `return` of line 205: no counter was created, no report is logged. -/
  | nessunUtente (eventi : List Evento)
  /-- The loop ran to its end and the report was logged. -/
  | completato (s : Stato)
  /-- An exception left the loop; the returned promise rejects and no report is logged. -/
  | eccezione (s : Stato)
  deriving DecidableEq, Repr

/-- The events of a run, however it ended. -/
def Risultato.eventi : Risultato → List Evento
  | .nessunUtente ev => ev
  | .completato s => s.eventi
  | .eccezione s => s.eventi

/-- The three counters reported by a run (`emailInviate`, `whatsappInviati`, `errori`),
when it reaches the report. -/
def Risultato.contatori : Risultato → Option (Nat × Nat × Nat)
  | .nessunUtente _ => none
  | .completato s => some (s.emailInviate, s.whatsappInviati, s.errori)
  | .eccezione _ => none

/-- The branches taken for the records a run processed. -/
def Risultato.esiti : Risultato → List Esito
  | .nessunUtente _ => []
  | .completato s => s.esiti
  | .eccezione s => s.esiti

/-- The function `inviaNotificheMensili`. -/
def inviaNotificheMensili (d : Disco) (w : Mondo) : Risultato :=
  let letto := leggiUtentiDaExcel d
  let utenti := letto.1
  let inizio := [Evento.info .avvio] ++ letto.2
  if utenti.length = 0 then
    .nessunUtente (inizio ++ [.errore .nessunUtente])
  else
    match ciclo w 0 utenti ⟨0, 0, 0, inizio, []⟩ with
    | .error s => .eccezione s
    | .ok s =>
      .completato { s with eventi := s.eventi ++
        [.info .completato,
         .info (.statistiche s.emailInviate s.whatsappInviati s.errori)] }

/-! ## Concrete inputs -/

/-- A record source holding exactly the given rows in the configured sheet. -/
def discoCon (utenti : List Utente) : Disco :=
  { existsSync := true,
    readFile := some { SheetNames := [sheetName], Sheets := fun _ => utenti } }

/-- The Excel file does not exist. -/
def discoSenzaFile : Disco :=
  { existsSync := false, readFile := none }

/-- The file exists but has no sheet called `notifiche`. -/
def discoSenzaFoglio : Disco :=
  { existsSync := true,
    readFile := some { SheetNames := ["Foglio1"], Sheets := fun _ => [] } }

/-- Both transports accept every message and the chat session is ready. -/
def mondoOk : Mondo :=
  { sendMail := fun _ _ _ _ => true,
    whatsappClient := fun _ => some ⟨true⟩,
    sendMessage := fun _ _ _ _ => true }

/-- The SMTP transport rejects every message. -/
def mondoEmailKo : Mondo :=
  { sendMail := fun _ _ _ _ => false,
    whatsappClient := fun _ => some ⟨true⟩,
    sendMessage := fun _ _ _ _ => true }

/-- The chat client was never created (`whatsappClient` is `null`). -/
def mondoSenzaChat : Mondo :=
  { sendMail := fun _ _ _ _ => true,
    whatsappClient := fun _ => none,
    sendMessage := fun _ _ _ _ => true }

/-- First record of the scenario of the specification. -/
def ana : Utente :=
  { Email := .str "ana@x.com", Telefono := .absent, Nome := .str "Ana",
    Dati := .str "€50", Canale := .str "email" }

/-- Second record of the scenario. -/
def bo : Utente :=
  { Email := .absent, Telefono := .str "391234567890", Nome := .str "Bo",
    Dati := .str "paid", Canale := .str "whatsapp" }

/-- Third record of the scenario. -/
def cy : Utente :=
  { Email := .absent, Telefono := .absent, Nome := .str "Cy",
    Dati := .absent, Canale := .str "fax" }

/-! ## Observations on traces and the counts the specification speaks of -/

/-- A channel cell that is missing or holds text: line 217 does not throw on it. -/
def Cell.assenteOTesto : Cell → Bool
  | .absent => true
  | .str _ => true
  | .num _ => false
  | .bool _ => false

/-- The argument triples of the calls of `inviaEmail`, in order. -/
def chiamateEmail : List Evento → List (Cell × Cell × Cell)
  | [] => []
  | .inviaEmail a b c :: r => (a, b, c) :: chiamateEmail r
  | _ :: r => chiamateEmail r

/-- The argument triples of the calls of `inviaWhatsApp`, in order. -/
def chiamateWhatsApp : List Evento → List (Cell × Cell × Cell)
  | [] => []
  | .inviaWhatsApp a b c :: r => (a, b, c) :: chiamateWhatsApp r
  | _ :: r => chiamateWhatsApp r

/-- The argument triples of the calls of `whatsappClient.sendMessage`, in order. -/
def chiamateSendMessage : List Evento → List (Cell × Cell × Cell)
  | [] => []
  | .sendMessage a b c :: r => (a, b, c) :: chiamateSendMessage r
  | _ :: r => chiamateSendMessage r

/-- The durations of the pacing delays, in order. -/
def pause : List Evento → List Nat
  | [] => []
  | .pausa ms :: r => ms :: pause r
  | _ :: r => pause r

/-- The reports (`Statistiche: ...`) logged, in order. -/
def rapporti : List Evento → List (Nat × Nat × Nat)
  | [] => []
  | .info (.statistiche a b c) :: r => (a, b, c) :: rapporti r
  | _ :: r => rapporti r

/-- Number of records of a batch, counted from position `i`, that satisfy `p`. -/
def contaDa (p : Nat → Utente → Bool) : Nat → List Utente → Nat
  | _, [] => 0
  | i, u :: r => (if p i u then 1 else 0) + contaDa p (i + 1) r

/-- The record at position `i` is on the email channel (declared in any letter case,
or defaulted because the cell is missing or empty), has an email address, and
`inviaEmail` returns `true` for it. -/
def emailRiuscita (w : Mondo) (i : Nat) (u : Utente) : Bool :=
  (match u.Canale with
   | .absent => true
   | .str s => s = "" || toLowerCase s = "email"
   | _ => false) &&
  u.Email.truthy && (inviaEmail w i u.Email (nome u) (dati u)).1

/-- The record at position `i` declares the channel `whatsapp` (in any letter case),
has a phone number, and `inviaWhatsApp` returns `true` for it. -/
def whatsappRiuscito (w : Mondo) (i : Nat) (u : Utente) : Bool :=
  (match u.Canale with
   | .str s => toLowerCase s = "whatsapp"
   | _ => false) &&
  u.Telefono.truthy && (inviaWhatsApp w i u.Telefono (nome u) (dati u)).1

/-- The pacing rule in the words of the specification: a delay follows a record whose
outcome is Sent, TransportFailed or ValidationFailed, unless it is the last one. -/
def pausaSecondoSpecifica (e : Esito) (ultimo : Bool) : Bool :=
  (e = .emailInviata || e = .whatsappInviato || e = .invioFallito ||
    e = .validazioneFallita) && !ultimo

/-- Number of delays the specification's rule gives for a sequence of outcomes. -/
def pausePreviste : List Esito → Nat
  | [] => 0
  | [e] => if pausaSecondoSpecifica e true then 1 else 0
  | e :: r => (if pausaSecondoSpecifica e false then 1 else 0) + pausePreviste r

/-- The pacing rule of the code: the delay of line 250 is reached unless the record
left the iteration through `continue`, which only the two validation failures do. -/
def pausaDelCodice (e : Esito) : Bool :=
  e != .validazioneFallita

/-- A record with a numeric channel cell. -/
def numerico : Utente :=
  { Email := .str "n@x.com", Telefono := .absent, Nome := .str "Nu",
    Dati := .str "x", Canale := .num 1 }

/-- A record with an address and nothing else. -/
def soloEmail : Utente :=
  { Email := .str "s@x.com", Telefono := .absent, Nome := .absent,
    Dati := .absent, Canale := .absent }

/-- A record whose channel cell holds the empty string. -/
def canaleVuoto : Utente :=
  { Email := .str "v@x.com", Telefono := .str "390000000000", Nome := .str "Vi",
    Dati := .str "y", Canale := .str "" }

/-- A record on the email channel without an address. -/
def senzaEmail : Utente :=
  { Email := .absent, Telefono := .str "391111111111", Nome := .str "Se",
    Dati := .str "z", Canale := .str "Email" }

/-- A record on the chat channel without a phone number. -/
def senzaTelefono : Utente :=
  { Email := .str "t@x.com", Telefono := .str "", Nome := .str "Te",
    Dati := .str "z", Canale := .str "WhatsApp" }

/-- The records the loop reaches before line 217 throws: the longest prefix of the batch
whose channel cells are missing or text. -/
def processabili (us : List Utente) : List Utente :=
  us.takeWhile fun u => u.Canale.assenteOTesto

/-- The record at position `i` is neither an email sent nor a message sent. -/
def erroreAtteso (w : Mondo) (i : Nat) (u : Utente) : Bool :=
  !(emailRiuscita w i u || whatsappRiuscito w i u)

/-- The argument triples `inviaEmail` is due for a list of records: one for every
record routed to the email channel that has an address, in order. -/
def argomentiEmail (us : List Utente) : List (Cell × Cell × Cell) :=
  (us.filter fun u => decide (canale u = some "email" ∧ u.Email.truthy = true)).map
    (fun u => (u.Email, nome u, dati u))

/-- The argument triples `inviaWhatsApp` is due for a list of records: one for every
record routed to the chat channel that has a phone number, in order. -/
def argomentiWhatsApp (us : List Utente) : List (Cell × Cell × Cell) :=
  (us.filter fun u => decide (canale u = some "whatsapp" ∧ u.Telefono.truthy = true)).map
    (fun u => (u.Telefono, nome u, dati u))

/-- The record is routed to a supported channel and lacks the field that channel needs
(outcome ValidationFailed). -/
def validazioneFallisce (u : Utente) : Bool :=
  (decide (canale u = some "email") && !u.Email.truthy) ||
  (decide (canale u = some "whatsapp") && !u.Telefono.truthy)

/-- The record is routed to a supported channel and has the field that channel needs,
so an adapter is called for it (outcome Sent or TransportFailed). -/
def tentaInvio (u : Utente) : Bool :=
  (decide (canale u = some "email") && u.Email.truthy) ||
  (decide (canale u = some "whatsapp") && u.Telefono.truthy)

/-- The outcome of the record at position `i`, read off its cells and the adapter's
answer. -/
def esitoAtteso (w : Mondo) (i : Nat) (u : Utente) : Esito :=
  if canale u = some "email" then
    if u.Email.truthy then
      if (inviaEmail w i u.Email (nome u) (dati u)).1 then .emailInviata else .invioFallito
    else .validazioneFallita
  else if canale u = some "whatsapp" then
    if u.Telefono.truthy then
      if (inviaWhatsApp w i u.Telefono (nome u) (dati u)).1 then .whatsappInviato
      else .invioFallito
    else .validazioneFallita
  else .canaleNonSupportato

/-- What the events `seg` caused by the iteration on the record `u` at position `i`
look like. -/
def segmentoDi (w : Mondo) (i : Nat) (u : Utente) (seg : List Evento) : Prop :=
  pause seg = (if pausaDelCodice (esitoAtteso w i u) then [ritardo] else []) ∧
  chiamateEmail seg = argomentiEmail [u] ∧
  chiamateWhatsApp seg = argomentiWhatsApp [u] ∧
  rapporti seg = [] ∧
  (pausaDelCodice (esitoAtteso w i u) = true → seg.getLast? = some (.pausa ritardo)) ∧
  (pausaDelCodice (esitoAtteso w i u) = false → ∃ m, seg = [.errore m])

/-- A record whose name cell holds the number 0 and whose payload cell holds `false`. -/
def falsi : Utente :=
  { Email := .str "f@x.com", Telefono := .absent, Nome := .num 0,
    Dati := .bool false, Canale := .str "EMAIL" }

/-- A record on the channel `FAX` that has both an address and a phone number. -/
def fax : Utente :=
  { Email := .str "f@x.com", Telefono := .str "392222222222", Nome := .str "Fa",
    Dati := .str "d", Canale := .str "FAX" }

/-- Exactly one of the three counters went up by one between `s` and `t`, and the other
two did not move. -/
def unIncremento (s t : Stato) : Prop :=
  (t.emailInviate = s.emailInviate + 1 ∧ t.whatsappInviati = s.whatsappInviati ∧
    t.errori = s.errori) ∨
  (t.emailInviate = s.emailInviate ∧ t.whatsappInviati = s.whatsappInviati + 1 ∧
    t.errori = s.errori) ∨
  (t.emailInviate = s.emailInviate ∧ t.whatsappInviati = s.whatsappInviati ∧
    t.errori = s.errori + 1)

/-! ## Basic facts -/

theorem toLowerCase_eq_empty (s : String) : toLowerCase s = "" ↔ s = "" := by
  cases s with
  | mk l =>
    cases l with
    | nil => simp [toLowerCase]
    | cons a r =>
      constructor
      · intro h
        have := congrArg String.data h
        simp [toLowerCase] at this
      · intro h
        have := congrArg String.data h
        simp at this

theorem canale_assente (u : Utente) (h : u.Canale = .absent) : canale u = some "email" := by
  simp [canale, h]

theorem canale_testo (u : Utente) (t : String) (h : u.Canale = .str t) :
    canale u = some (if t = "" then "email" else toLowerCase t) := by
  simp [canale, h, toLowerCase_eq_empty]

theorem canale_some_of_assenteOTesto (u : Utente) (h : u.Canale.assenteOTesto = true) :
    ∃ c, canale u = some c := by
  cases hc : u.Canale with
  | absent => exact ⟨_, canale_assente u hc⟩
  | str t => exact ⟨_, canale_testo u t hc⟩
  | num n => simp [hc, Cell.assenteOTesto] at h
  | bool b => simp [hc, Cell.assenteOTesto] at h

theorem chiamateEmail_append (a b : List Evento) :
    chiamateEmail (a ++ b) = chiamateEmail a ++ chiamateEmail b := by
  induction a with
  | nil => rfl
  | cons e r ih => cases e <;> simp [chiamateEmail, ih]

theorem chiamateWhatsApp_append (a b : List Evento) :
    chiamateWhatsApp (a ++ b) = chiamateWhatsApp a ++ chiamateWhatsApp b := by
  induction a with
  | nil => rfl
  | cons e r ih => cases e <;> simp [chiamateWhatsApp, ih]

theorem chiamateSendMessage_append (a b : List Evento) :
    chiamateSendMessage (a ++ b) = chiamateSendMessage a ++ chiamateSendMessage b := by
  induction a with
  | nil => rfl
  | cons e r ih => cases e <;> simp [chiamateSendMessage, ih]

theorem pause_append (a b : List Evento) : pause (a ++ b) = pause a ++ pause b := by
  induction a with
  | nil => rfl
  | cons e r ih => cases e <;> simp [pause, ih]

theorem rapporti_append (a b : List Evento) :
    rapporti (a ++ b) = rapporti a ++ rapporti b := by
  induction a with
  | nil => rfl
  | cons e r ih =>
    cases e with
    | info m => cases m <;> simp [rapporti, ih]
    | _ => simp [rapporti, ih]

/-! ### The branches of one iteration -/

theorem processaUtente_eccezione (w : Mondo) (i : Nat) (u : Utente) (s : Stato)
    (h : canale u = none) : processaUtente w i u s = .error s := by
  simp [processaUtente, h]

theorem processaUtente_email_senza (w : Mondo) (i : Nat) (u : Utente) (s : Stato)
    (h : canale u = some "email") (he : u.Email.truthy = false) :
    processaUtente w i u s =
      .ok { s with errori := s.errori + 1,
                   eventi := s.eventi ++ [.errore (.emailNonValida (nome u))],
                   esiti := s.esiti ++ [.validazioneFallita] } := by
  simp [processaUtente, h, he]

theorem processaUtente_email_ok (w : Mondo) (i : Nat) (u : Utente) (s : Stato)
    (h : canale u = some "email") (he : u.Email.truthy = true)
    (hr : (inviaEmail w i u.Email (nome u) (dati u)).1 = true) :
    processaUtente w i u s =
      .ok { s with emailInviate := s.emailInviate + 1,
                   eventi := s.eventi ++ (inviaEmail w i u.Email (nome u) (dati u)).2 ++
                     [.pausa ritardo],
                   esiti := s.esiti ++ [.emailInviata] } := by
  simp [processaUtente, h, he, hr]

theorem processaUtente_email_ko (w : Mondo) (i : Nat) (u : Utente) (s : Stato)
    (h : canale u = some "email") (he : u.Email.truthy = true)
    (hr : (inviaEmail w i u.Email (nome u) (dati u)).1 = false) :
    processaUtente w i u s =
      .ok { s with errori := s.errori + 1,
                   eventi := s.eventi ++ (inviaEmail w i u.Email (nome u) (dati u)).2 ++
                     [.pausa ritardo],
                   esiti := s.esiti ++ [.invioFallito] } := by
  simp [processaUtente, h, he, hr]

theorem processaUtente_whatsapp_senza (w : Mondo) (i : Nat) (u : Utente) (s : Stato)
    (h : canale u = some "whatsapp") (he : u.Telefono.truthy = false) :
    processaUtente w i u s =
      .ok { s with errori := s.errori + 1,
                   eventi := s.eventi ++ [.errore (.telefonoNonValido (nome u))],
                   esiti := s.esiti ++ [.validazioneFallita] } := by
  simp [processaUtente, h, he]

theorem processaUtente_whatsapp_ok (w : Mondo) (i : Nat) (u : Utente) (s : Stato)
    (h : canale u = some "whatsapp") (he : u.Telefono.truthy = true)
    (hr : (inviaWhatsApp w i u.Telefono (nome u) (dati u)).1 = true) :
    processaUtente w i u s =
      .ok { s with whatsappInviati := s.whatsappInviati + 1,
                   eventi := s.eventi ++ (inviaWhatsApp w i u.Telefono (nome u) (dati u)).2 ++
                     [.pausa ritardo],
                   esiti := s.esiti ++ [.whatsappInviato] } := by
  simp [processaUtente, h, he, hr]

theorem processaUtente_whatsapp_ko (w : Mondo) (i : Nat) (u : Utente) (s : Stato)
    (h : canale u = some "whatsapp") (he : u.Telefono.truthy = true)
    (hr : (inviaWhatsApp w i u.Telefono (nome u) (dati u)).1 = false) :
    processaUtente w i u s =
      .ok { s with errori := s.errori + 1,
                   eventi := s.eventi ++ (inviaWhatsApp w i u.Telefono (nome u) (dati u)).2 ++
                     [.pausa ritardo],
                   esiti := s.esiti ++ [.invioFallito] } := by
  simp [processaUtente, h, he, hr]

theorem processaUtente_altro (w : Mondo) (i : Nat) (u : Utente) (s : Stato) (c : String)
    (h : canale u = some c) (h1 : c ≠ "email") (h2 : c ≠ "whatsapp") :
    processaUtente w i u s =
      .ok { s with errori := s.errori + 1,
                   eventi := s.eventi ++ [.errore (.canaleNonSupportato c (nome u)),
                                          .pausa ritardo],
                   esiti := s.esiti ++ [.canaleNonSupportato] } := by
  simp [processaUtente, h, h1, h2]

theorem ciclo_cons_ok (w : Mondo) (i : Nat) (u : Utente) (resto : List Utente)
    (s s' : Stato) (h : processaUtente w i u s = .ok s') :
    ciclo w i (u :: resto) s = ciclo w (i + 1) resto s' := by
  simp [ciclo, h]

theorem emailRiuscita_eq (w : Mondo) (i : Nat) (u : Utente) :
    emailRiuscita w i u =
      (decide (canale u = some "email") && u.Email.truthy &&
        (inviaEmail w i u.Email (nome u) (dati u)).1) := by
  unfold emailRiuscita
  cases hc : u.Canale with
  | absent => simp [canale, hc]
  | str t =>
    by_cases ht : t = ""
    · subst ht
      simp [canale, hc, toLowerCase_eq_empty]
    · simp [canale, hc, toLowerCase_eq_empty, ht]
  | num n => simp [canale, hc]
  | bool b => simp [canale, hc]

theorem whatsappRiuscito_eq (w : Mondo) (i : Nat) (u : Utente) :
    whatsappRiuscito w i u =
      (decide (canale u = some "whatsapp") && u.Telefono.truthy &&
        (inviaWhatsApp w i u.Telefono (nome u) (dati u)).1) := by
  unfold whatsappRiuscito
  cases hc : u.Canale with
  | absent => simp [canale, hc]
  | str t =>
    by_cases ht : t = ""
    · subst ht
      simp [canale, hc, toLowerCase_eq_empty, toLowerCase]
    · simp [canale, hc, toLowerCase_eq_empty, ht]
  | num n => simp [canale, hc]
  | bool b => simp [canale, hc]

theorem chiamate_inviaEmail (w : Mondo) (i : Nat) (a b c : Cell) :
    chiamateEmail (inviaEmail w i a b c).2 = [(a, b, c)] ∧
    chiamateWhatsApp (inviaEmail w i a b c).2 = [] ∧
    chiamateSendMessage (inviaEmail w i a b c).2 = [] ∧
    pause (inviaEmail w i a b c).2 = [] ∧ rapporti (inviaEmail w i a b c).2 = [] := by
  unfold inviaEmail
  split <;> simp [chiamateEmail, chiamateWhatsApp, chiamateSendMessage, pause, rapporti]

theorem chiamate_inviaWhatsApp (w : Mondo) (i : Nat) (a b c : Cell) :
    chiamateEmail (inviaWhatsApp w i a b c).2 = [] ∧
    chiamateWhatsApp (inviaWhatsApp w i a b c).2 = [(a, b, c)] ∧
    pause (inviaWhatsApp w i a b c).2 = [] ∧ rapporti (inviaWhatsApp w i a b c).2 = [] := by
  unfold inviaWhatsApp
  split
  · simp [chiamateEmail, chiamateWhatsApp, pause, rapporti]
  · split <;> simp [chiamateEmail, chiamateWhatsApp, pause, rapporti]

/-- What one iteration does to the variables, for a record whose channel cell is
missing or text. -/
theorem passo_spec (w : Mondo) (i : Nat) (u : Utente) (s : Stato)
    (h : u.Canale.assenteOTesto = true) :
    ∃ e nuovi,
      processaUtente w i u s = .ok
        { emailInviate := s.emailInviate + (if emailRiuscita w i u then 1 else 0),
          whatsappInviati := s.whatsappInviati + (if whatsappRiuscito w i u then 1 else 0),
          errori := s.errori +
            (if emailRiuscita w i u || whatsappRiuscito w i u then 0 else 1),
          eventi := s.eventi ++ nuovi,
          esiti := s.esiti ++ [e] } ∧
      pause nuovi = (if pausaDelCodice e then [ritardo] else []) ∧
      chiamateEmail nuovi =
        (if canale u = some "email" ∧ u.Email.truthy = true
          then [(u.Email, nome u, dati u)] else []) ∧
      chiamateWhatsApp nuovi =
        (if canale u = some "whatsapp" ∧ u.Telefono.truthy = true
          then [(u.Telefono, nome u, dati u)] else []) ∧
      rapporti nuovi = [] ∧
      (pausaDelCodice e = true → nuovi.getLast? = some (.pausa ritardo)) ∧
      e = esitoAtteso w i u ∧
      (pausaDelCodice e = false → ∃ m, nuovi = [.errore m]) := by
  obtain ⟨c, hc⟩ := canale_some_of_assenteOTesto u h
  unfold esitoAtteso
  rw [emailRiuscita_eq, whatsappRiuscito_eq]
  by_cases h1 : c = "email"
  · subst h1
    cases he : u.Email.truthy with
    | false =>
      refine ⟨.validazioneFallita, [.errore (.emailNonValida (nome u))], ?_, ?_⟩
      · rw [processaUtente_email_senza w i u s hc he]
        simp [hc, he]
      · simp [hc, he, pause, chiamateEmail, chiamateWhatsApp, rapporti, pausaDelCodice]
    | true =>
      obtain ⟨k1, k2, _, k4, k5⟩ := chiamate_inviaEmail w i u.Email (nome u) (dati u)
      cases hr : (inviaEmail w i u.Email (nome u) (dati u)).1 with
      | false =>
        refine ⟨.invioFallito,
          (inviaEmail w i u.Email (nome u) (dati u)).2 ++ [.pausa ritardo], ?_, ?_⟩
        · rw [processaUtente_email_ko w i u s hc he hr]
          simp [hc, he, hr, List.append_assoc]
        · simp [hc, he, pause_append, chiamateEmail_append, chiamateWhatsApp_append,
            rapporti_append, k1, k2, k4, k5, pause, chiamateEmail, chiamateWhatsApp,
            rapporti, pausaDelCodice]
      | true =>
        refine ⟨.emailInviata,
          (inviaEmail w i u.Email (nome u) (dati u)).2 ++ [.pausa ritardo], ?_, ?_⟩
        · rw [processaUtente_email_ok w i u s hc he hr]
          simp [hc, he, hr, List.append_assoc]
        · simp [hc, he, pause_append, chiamateEmail_append, chiamateWhatsApp_append,
            rapporti_append, k1, k2, k4, k5, pause, chiamateEmail, chiamateWhatsApp,
            rapporti, pausaDelCodice]
  · by_cases h2 : c = "whatsapp"
    · subst h2
      cases he : u.Telefono.truthy with
      | false =>
        refine ⟨.validazioneFallita, [.errore (.telefonoNonValido (nome u))], ?_, ?_⟩
        · rw [processaUtente_whatsapp_senza w i u s hc he]
          simp [hc, he]
        · simp [hc, he, pause, chiamateEmail, chiamateWhatsApp, rapporti, pausaDelCodice]
      | true =>
        obtain ⟨k1, k2, k4, k5⟩ := chiamate_inviaWhatsApp w i u.Telefono (nome u) (dati u)
        cases hr : (inviaWhatsApp w i u.Telefono (nome u) (dati u)).1 with
        | false =>
          refine ⟨.invioFallito,
            (inviaWhatsApp w i u.Telefono (nome u) (dati u)).2 ++ [.pausa ritardo], ?_, ?_⟩
          · rw [processaUtente_whatsapp_ko w i u s hc he hr]
            simp [hc, he, hr, List.append_assoc]
          · simp [hc, he, pause_append, chiamateEmail_append, chiamateWhatsApp_append,
              rapporti_append, k1, k2, k4, k5, pause, chiamateEmail, chiamateWhatsApp,
              rapporti, pausaDelCodice]
        | true =>
          refine ⟨.whatsappInviato,
            (inviaWhatsApp w i u.Telefono (nome u) (dati u)).2 ++ [.pausa ritardo], ?_, ?_⟩
          · rw [processaUtente_whatsapp_ok w i u s hc he hr]
            simp [hc, he, hr, List.append_assoc]
          · simp [hc, he, pause_append, chiamateEmail_append, chiamateWhatsApp_append,
              rapporti_append, k1, k2, k4, k5, pause, chiamateEmail, chiamateWhatsApp,
              rapporti, pausaDelCodice]
    · refine ⟨.canaleNonSupportato,
        [.errore (.canaleNonSupportato c (nome u)), .pausa ritardo], ?_, ?_⟩
      · rw [processaUtente_altro w i u s c hc h1 h2]
        simp [hc, h1, h2]
      · simp [hc, h1, h2, pause, chiamateEmail, chiamateWhatsApp, rapporti, pausaDelCodice]

/-- What the whole loop does to the variables, for records whose channel cells are
missing or text. -/
theorem ciclo_spec (w : Mondo) :
    ∀ (us : List Utente) (i : Nat) (s : Stato),
      (∀ u ∈ us, u.Canale.assenteOTesto = true) →
      ∃ s', ciclo w i us s = .ok s' ∧
        s'.emailInviate = s.emailInviate + contaDa (emailRiuscita w) i us ∧
        s'.whatsappInviati = s.whatsappInviati + contaDa (whatsappRiuscito w) i us ∧
        s'.errori = s.errori +
          contaDa (fun j u => !(emailRiuscita w j u || whatsappRiuscito w j u)) i us ∧
        ∃ es nuovi, s'.esiti = s.esiti ++ es ∧ es.length = us.length ∧
          s'.eventi = s.eventi ++ nuovi ∧
          pause nuovi = List.replicate (es.countP pausaDelCodice) ritardo ∧
          chiamateEmail nuovi =
            (us.filter fun u => decide (canale u = some "email" ∧ u.Email.truthy = true)).map
              (fun u => (u.Email, nome u, dati u)) ∧
          chiamateWhatsApp nuovi =
            (us.filter fun u =>
              decide (canale u = some "whatsapp" ∧ u.Telefono.truthy = true)).map
              (fun u => (u.Telefono, nome u, dati u)) ∧
          rapporti nuovi = [] := by
  intro us
  induction us with
  | nil =>
    intro i s _
    exact ⟨s, rfl, by simp [contaDa], by simp [contaDa], by simp [contaDa], [], [],
      by simp, rfl, by simp, by simp [pause], by simp [chiamateEmail],
      by simp [chiamateWhatsApp], by simp [rapporti]⟩
  | cons u resto ih =>
    intro i s h
    have hu : u.Canale.assenteOTesto = true := h u (List.mem_cons_self _ _)
    have hr : ∀ v ∈ resto, v.Canale.assenteOTesto = true :=
      fun v hv => h v (List.mem_cons_of_mem _ hv)
    obtain ⟨e, n1, hstep, hp, hce, hcw, hrap, _⟩ := passo_spec w i u s hu
    obtain ⟨s', hs', h1, h2, h3, es, n2, hes, hlen, hev, hp2, hce2, hcw2, hrap2⟩ :=
      ih (i + 1) _ hr
    refine ⟨s', ?_, ?_, ?_, ?_, e :: es, n1 ++ n2, ?_, ?_, ?_, ?_, ?_, ?_, ?_⟩
    · rw [ciclo_cons_ok w i u resto s _ hstep, hs']
    · rw [h1]
      simp only [contaDa]
      omega
    · rw [h2]
      simp only [contaDa]
      omega
    · rw [h3]
      simp only [contaDa]
      rcases Bool.eq_false_or_eq_true (emailRiuscita w i u) with k1 | k1 <;>
        rcases Bool.eq_false_or_eq_true (whatsappRiuscito w i u) with k2 | k2 <;>
        (simp [k1, k2]; try omega)
    · rw [hes]
      simp
    · simp [hlen]
    · rw [hev]
      simp
    · rw [pause_append, hp, hp2]
      cases e <;> simp [pausaDelCodice, List.countP_cons, List.replicate_succ,
        List.replicate_add]
    · rw [chiamateEmail_append, hce, hce2]
      by_cases hk : canale u = some "email" ∧ u.Email.truthy = true
      · simp [List.filter_cons, hk]
      · simp [List.filter_cons, hk]
    · rw [chiamateWhatsApp_append, hcw, hcw2]
      by_cases hk : canale u = some "whatsapp" ∧ u.Telefono.truthy = true
      · simp [List.filter_cons, hk]
      · simp [List.filter_cons, hk]
    · rw [rapporti_append, hrap, hrap2]
      rfl

theorem email_whatsapp_esclusivi (w : Mondo) (i : Nat) (u : Utente) :
    ¬ (emailRiuscita w i u = true ∧ whatsappRiuscito w i u = true) := by
  rw [emailRiuscita_eq, whatsappRiuscito_eq]
  intro h
  simp only [Bool.and_eq_true, decide_eq_true_eq] at h
  obtain ⟨⟨⟨a, _⟩, _⟩, ⟨⟨b, _⟩, _⟩⟩ := h
  rw [a] at b
  exact absurd b (by decide)

theorem contaDa_somma (w : Mondo) :
    ∀ (us : List Utente) (i : Nat),
      contaDa (emailRiuscita w) i us + contaDa (whatsappRiuscito w) i us +
        contaDa (fun j u => !(emailRiuscita w j u || whatsappRiuscito w j u)) i us =
      us.length := by
  intro us
  induction us with
  | nil => intro i; simp [contaDa]
  | cons u resto ih =>
    intro i
    have := ih (i + 1)
    have hx := email_whatsapp_esclusivi w i u
    simp only [contaDa, List.length_cons]
    rcases Bool.eq_false_or_eq_true (emailRiuscita w i u) with h1 | h1 <;>
      rcases Bool.eq_false_or_eq_true (whatsappRiuscito w i u) with h2 | h2 <;>
      simp [h1, h2] at hx this ⊢ <;> omega

/-- A run over a non-empty batch whose channel cells are missing or text completes, and
its final variables are those of the loop with the report appended to the events. -/
theorem run_spec (d : Disco) (w : Mondo)
    (hne : (leggiUtentiDaExcel d).1 ≠ [])
    (h : ∀ u ∈ (leggiUtentiDaExcel d).1, u.Canale.assenteOTesto = true) :
    ∃ s, ciclo w 0 (leggiUtentiDaExcel d).1
          ⟨0, 0, 0, [Evento.info .avvio] ++ (leggiUtentiDaExcel d).2, []⟩ = .ok s ∧
      inviaNotificheMensili d w = .completato
        { s with eventi := s.eventi ++
            [.info .completato,
             .info (.statistiche s.emailInviate s.whatsappInviati s.errori)] } := by
  obtain ⟨s, hs, _⟩ := ciclo_spec w (leggiUtentiDaExcel d).1 0
    ⟨0, 0, 0, [Evento.info .avvio] ++ (leggiUtentiDaExcel d).2, []⟩ h
  refine ⟨s, hs, ?_⟩
  unfold inviaNotificheMensili
  simp only [List.length_eq_zero, hne, if_false]
  rw [hs]

theorem leggi_eventi (d : Disco) :
    chiamateEmail (leggiUtentiDaExcel d).2 = [] ∧
    chiamateWhatsApp (leggiUtentiDaExcel d).2 = [] ∧
    pause (leggiUtentiDaExcel d).2 = [] ∧ rapporti (leggiUtentiDaExcel d).2 = [] := by
  unfold leggiUtentiDaExcel
  split
  · simp [chiamateEmail, chiamateWhatsApp, pause, rapporti]
  · split
    · simp [chiamateEmail, chiamateWhatsApp, pause, rapporti]
    · split <;> simp [chiamateEmail, chiamateWhatsApp, pause, rapporti]

theorem leggi_discoCon (us : List Utente) :
    leggiUtentiDaExcel (discoCon us) = (us, [.info (.letti us.length)]) := by
  simp [leggiUtentiDaExcel, discoCon]

theorem ciclo_congr (w : Mondo) (u v : Utente)
    (h : ∀ i s, processaUtente w i u s = processaUtente w i v s) (post : List Utente) :
    ∀ (pre : List Utente) (i : Nat) (s : Stato),
      ciclo w i (pre ++ u :: post) s = ciclo w i (pre ++ v :: post) s := by
  intro pre
  induction pre with
  | nil =>
    intro i s
    simp [ciclo, h]
  | cons a r ih =>
    intro i s
    simp only [List.cons_append, ciclo]
    cases processaUtente w i a s with
    | error e => rfl
    | ok t => exact ih (i + 1) t

theorem assenteOTesto_of_canale (u : Utente) (c : String) (h : canale u = some c) :
    u.Canale.assenteOTesto = true := by
  cases hc : u.Canale <;> simp [canale, hc, Cell.assenteOTesto] at h ⊢

/-! ## The claims -/

/-- C1: for a non-empty batch whose channel cells are missing or text, and whatever the
two transports answer, the run completes and its three counters add up to the number
of records; each single record moves exactly one counter, by one. -/
theorem C1_somma_contatori (d : Disco) (w : Mondo)
    (hne : (leggiUtentiDaExcel d).1 ≠ [])
    (h : ∀ u ∈ (leggiUtentiDaExcel d).1, u.Canale.assenteOTesto = true) :
    (∃ s, inviaNotificheMensili d w = .completato s ∧
      s.emailInviate + s.whatsappInviati + s.errori = (leggiUtentiDaExcel d).1.length ∧
      s.esiti.length = (leggiUtentiDaExcel d).1.length) ∧
    (∀ u ∈ (leggiUtentiDaExcel d).1, ∀ (i : Nat) (s : Stato),
      ∃ s', processaUtente w i u s = .ok s' ∧ unIncremento s s') := by
  constructor
  · obtain ⟨s, hs, hrun⟩ := run_spec d w hne h
    obtain ⟨s', hs', h1, h2, h3, es, nuovi, hes, hlen, _⟩ :=
      ciclo_spec w (leggiUtentiDaExcel d).1 0
        ⟨0, 0, 0, [Evento.info .avvio] ++ (leggiUtentiDaExcel d).2, []⟩ h
    rw [hs] at hs'
    cases hs'
    refine ⟨_, hrun, ?_, ?_⟩
    · have := contaDa_somma w (leggiUtentiDaExcel d).1 0
      simp only [h1, h2, h3]
      omega
    · simp [hes, hlen]
  · intro u hu i s
    obtain ⟨e, nuovi, hstep, _⟩ := passo_spec w i u s (h u hu)
    refine ⟨_, hstep, ?_⟩
    have hx := email_whatsapp_esclusivi w i u
    unfold unIncremento
    rcases Bool.eq_false_or_eq_true (emailRiuscita w i u) with k1 | k1 <;>
      rcases Bool.eq_false_or_eq_true (whatsappRiuscito w i u) with k2 | k2 <;>
      simp [k1, k2] at hx ⊢

/-- Witness of C1 on the three-record scenario of the specification. -/
theorem C1_somma_contatori_witness :
    (leggiUtentiDaExcel (discoCon [ana, bo, cy])).1 ≠ [] ∧
    (∀ u ∈ (leggiUtentiDaExcel (discoCon [ana, bo, cy])).1, u.Canale.assenteOTesto = true) ∧
    ∃ s, inviaNotificheMensili (discoCon [ana, bo, cy]) mondoOk = .completato s ∧
      s.emailInviate + s.whatsappInviati + s.errori =
        (leggiUtentiDaExcel (discoCon [ana, bo, cy])).1.length ∧
      s.esiti.length = (leggiUtentiDaExcel (discoCon [ana, bo, cy])).1.length :=
  ⟨by decide, by decide,
    (C1_somma_contatori (discoCon [ana, bo, cy]) mondoOk (by decide) (by decide)).1⟩

/-- C2 (evaluation at the failing input): a numeric channel cell in the first record
makes line 217 throw outside the `try`; the run ends with the exception, nothing was
counted, and the valid record after it was never processed. -/
theorem C2_eccezione_canale_numerico :
    inviaNotificheMensili (discoCon [numerico, ana]) mondoOk =
      .eccezione ⟨0, 0, 0, [.info .avvio, .info (.letti 2)], []⟩ ∧
    chiamateEmail (inviaNotificheMensili (discoCon [numerico, ana]) mondoOk).eventi = [] ∧
    rapporti (inviaNotificheMensili (discoCon [numerico, ana]) mondoOk).eventi = [] := by
  decide

/-- C5: a record whose channel cell is missing or empty is processed exactly as the same
record with the channel cell `email`: the iteration gives the same variables (same
counter moved, same events, hence the same `inviaEmail` call or the same validation
failure), a whole run over a batch containing it is the same, and `inviaWhatsApp` is
not called for it even when it has a phone number. -/
theorem C5_canale_predefinito (w : Mondo) (u : Utente)
    (h : u.Canale = .absent ∨ u.Canale = .str "") :
    (∀ (i : Nat) (s : Stato),
      processaUtente w i u s = processaUtente w i { u with Canale := .str "email" } s) ∧
    (∀ pre post : List Utente,
      inviaNotificheMensili (discoCon (pre ++ u :: post)) w =
        inviaNotificheMensili (discoCon (pre ++ { u with Canale := .str "email" } :: post)) w) ∧
    (∀ (i : Nat) (s : Stato), ∃ s', processaUtente w i u s = .ok s' ∧
      chiamateWhatsApp s'.eventi = chiamateWhatsApp s.eventi ∧
      chiamateEmail s'.eventi = chiamateEmail s.eventi ++
        (if u.Email.truthy then [(u.Email, nome u, dati u)] else [])) := by
  have hc : canale u = some "email" := by
    rcases h with h | h
    · exact canale_assente u h
    · rw [canale_testo u "" h]
      simp
  have hc' : canale { u with Canale := .str "email" } = some "email" := by
    rw [canale_testo _ "email" rfl]
    decide
  have hpasso : ∀ (i : Nat) (s : Stato),
      processaUtente w i u s = processaUtente w i { u with Canale := .str "email" } s := by
    intro i s
    simp [processaUtente, hc, hc', nome, dati]
  refine ⟨hpasso, ?_, ?_⟩
  · intro pre post
    unfold inviaNotificheMensili
    simp only [leggi_discoCon, List.length_append, List.length_cons]
    rw [ciclo_congr w u _ hpasso post pre]
  · intro i s
    obtain ⟨e, nuovi, hstep, _, hce, hcw, _⟩ :=
      passo_spec w i u s (assenteOTesto_of_canale u _ hc)
    refine ⟨_, hstep, ?_, ?_⟩
    · simp [chiamateWhatsApp_append, hcw, hc]
    · simp [chiamateEmail_append, hce, hc]

/-- Witness of C5: a record with an empty channel cell, an address and a phone number. -/
theorem C5_canale_predefinito_witness :
    (canaleVuoto.Canale = .absent ∨ canaleVuoto.Canale = .str "") ∧
    inviaNotificheMensili (discoCon ([ana] ++ canaleVuoto :: [bo])) mondoOk =
      inviaNotificheMensili
        (discoCon ([ana] ++ { canaleVuoto with Canale := .str "email" } :: [bo])) mondoOk :=
  ⟨by decide, (C5_canale_predefinito mondoOk canaleVuoto (by decide)).2.1 [ana] [bo]⟩

theorem contaDa_eq_zero (p : Nat → Utente → Bool) :
    ∀ (us : List Utente) (i : Nat), (∀ j, ∀ u ∈ us, p j u = false) → contaDa p i us = 0 := by
  intro us
  induction us with
  | nil => intro i _; rfl
  | cons u r ih =>
    intro i h
    simp [contaDa, h i u (List.mem_cons_self _ _),
      ih (i + 1) (fun j v hv => h j v (List.mem_cons_of_mem _ hv))]

theorem run_vuoto (d : Disco) (w : Mondo) (h : (leggiUtentiDaExcel d).1 = []) :
    inviaNotificheMensili d w =
      .nessunUtente ([.info .avvio] ++ (leggiUtentiDaExcel d).2 ++ [.errore .nessunUtente]) := by
  unfold inviaNotificheMensili
  simp [h]

/-- C6 as stated fails: a record on the email channel with an address but no name and
no payload cell reaches `inviaEmail` with the placeholders, not with the (missing)
values of its `Nome` and `Dati` cells. -/
theorem C6_controesempio :
    canale soloEmail = some "email" ∧ soloEmail.Email.truthy = true ∧
    chiamateEmail (inviaNotificheMensili (discoCon [soloEmail]) mondoOk).eventi =
      [(.str "s@x.com", .str "Utente", .str "Nessun dato disponibile")] ∧
    chiamateEmail (inviaNotificheMensili (discoCon [soloEmail]) mondoOk).eventi ≠
      [soloEmail].map (fun u => (u.Email, u.Nome, u.Dati)) := by
  decide

/-- C6 amended: for a batch of N records on the email channel, each with a non-empty
address, the run makes exactly N calls of `inviaEmail` and none of `inviaWhatsApp`, in
source order, and the i-th call receives the i-th record's `Email` cell, its `Nome`
cell or `Utente` when that cell is falsy (missing, the empty string, the number 0 or
`false`), and its `Dati` cell or `Nessun dato disponibile` when that cell is falsy. -/
theorem C6_chiamate_email (d : Disco) (w : Mondo)
    (h : ∀ u ∈ (leggiUtentiDaExcel d).1, canale u = some "email" ∧ u.Email.truthy = true) :
    chiamateEmail (inviaNotificheMensili d w).eventi =
      (leggiUtentiDaExcel d).1.map (fun u =>
        (u.Email,
         if u.Nome.truthy then u.Nome else .str "Utente",
         if u.Dati.truthy then u.Dati else .str "Nessun dato disponibile")) ∧
    (chiamateEmail (inviaNotificheMensili d w).eventi).length =
      (leggiUtentiDaExcel d).1.length ∧
    chiamateWhatsApp (inviaNotificheMensili d w).eventi = [] := by
  obtain ⟨l1, l2, _, _⟩ := leggi_eventi d
  have key : chiamateEmail (inviaNotificheMensili d w).eventi =
      (leggiUtentiDaExcel d).1.map (fun u => (u.Email, nome u, dati u)) ∧
      chiamateWhatsApp (inviaNotificheMensili d w).eventi = [] := by
    by_cases hne : (leggiUtentiDaExcel d).1 = []
    · rw [run_vuoto d w hne]
      simp [Risultato.eventi, chiamateEmail_append, chiamateWhatsApp_append, l1, l2, hne,
        chiamateEmail, chiamateWhatsApp]
    · have ht : ∀ u ∈ (leggiUtentiDaExcel d).1, u.Canale.assenteOTesto = true :=
        fun u hu => assenteOTesto_of_canale u _ (h u hu).1
      obtain ⟨s, hs, hrun⟩ := run_spec d w hne ht
      obtain ⟨s', hs', _, _, _, es, nuovi, _, _, hev, _, hce, hcw, _⟩ :=
        ciclo_spec w (leggiUtentiDaExcel d).1 0
          ⟨0, 0, 0, [Evento.info .avvio] ++ (leggiUtentiDaExcel d).2, []⟩ ht
      rw [hs] at hs'
      cases hs'
      have f1 : (leggiUtentiDaExcel d).1.filter
          (fun u => decide (canale u = some "email" ∧ u.Email.truthy = true)) =
          (leggiUtentiDaExcel d).1 :=
        List.filter_eq_self.mpr (fun u hu => by simpa using h u hu)
      have f2 : (leggiUtentiDaExcel d).1.filter
          (fun u => decide (canale u = some "whatsapp" ∧ u.Telefono.truthy = true)) = [] :=
        List.filter_eq_nil_iff.mpr (fun u hu => by simp [(h u hu).1])
      rw [hrun]
      simp only [Risultato.eventi, hev, chiamateEmail_append, chiamateWhatsApp_append,
        hce, hcw, f1, f2]
      simp [chiamateEmail, chiamateWhatsApp, l1, l2]
  refine ⟨?_, ?_, key.2⟩
  · rw [key.1]
    simp [nome, dati, Cell.oppure]
  · rw [key.1]
    simp

/-- Witness of C6: three valid email records; the second has no name and no payload
cell, the third has the number 0 as name and `false` as payload, and both reach
`inviaEmail` with the placeholders. -/
theorem C6_chiamate_email_witness :
    (∀ u ∈ (leggiUtentiDaExcel (discoCon [ana, soloEmail, falsi])).1,
      canale u = some "email" ∧ u.Email.truthy = true) ∧
    chiamateEmail (inviaNotificheMensili (discoCon [ana, soloEmail, falsi]) mondoOk).eventi =
      [(.str "ana@x.com", .str "Ana", .str "€50"),
       (.str "s@x.com", .str "Utente", .str "Nessun dato disponibile"),
       (.str "f@x.com", .str "Utente", .str "Nessun dato disponibile")] ∧
    chiamateWhatsApp
      (inviaNotificheMensili (discoCon [ana, soloEmail, falsi]) mondoOk).eventi = [] := by
  obtain ⟨h1, _, h3⟩ :=
    C6_chiamate_email (discoCon [ana, soloEmail, falsi]) mondoOk (by decide)
  refine ⟨by decide, ?_, h3⟩
  rw [h1]
  decide

/-- For a non-empty batch whose channel cells are missing or text, the run completes
and reports counters that match the outcomes: `emailInviate` counts the records whose
channel is `email` in any letter case, or missing, or empty, that have an address and
for which `inviaEmail` returned `true`; `whatsappInviati` counts those whose channel is
`whatsapp` in any letter case, that have a phone number and for which `inviaWhatsApp`
returned `true`; `errori` counts all the others.  An all-email batch with an
always-failing transport gives no email sent and as many errors as records. -/
theorem contatori_canali_testuali (d : Disco) (w : Mondo)
    (hne : (leggiUtentiDaExcel d).1 ≠ [])
    (h : ∀ u ∈ (leggiUtentiDaExcel d).1, u.Canale.assenteOTesto = true) :
    ∃ s, inviaNotificheMensili d w = .completato s ∧
      s.emailInviate = contaDa (emailRiuscita w) 0 (leggiUtentiDaExcel d).1 ∧
      s.whatsappInviati = contaDa (whatsappRiuscito w) 0 (leggiUtentiDaExcel d).1 ∧
      s.errori = (leggiUtentiDaExcel d).1.length -
        (contaDa (emailRiuscita w) 0 (leggiUtentiDaExcel d).1 +
          contaDa (whatsappRiuscito w) 0 (leggiUtentiDaExcel d).1) ∧
      rapporti s.eventi = [(s.emailInviate, s.whatsappInviati, s.errori)] ∧
      ((∀ u ∈ (leggiUtentiDaExcel d).1, canale u = some "email") →
        (∀ i a b c, w.sendMail i a b c = false) →
        s.emailInviate = 0 ∧ s.errori = (leggiUtentiDaExcel d).1.length) := by
  obtain ⟨s, hs, hrun⟩ := run_spec d w hne h
  obtain ⟨s', hs', h1, h2, h3, es, nuovi, _, _, hev, _, _, _, hrap⟩ :=
    ciclo_spec w (leggiUtentiDaExcel d).1 0
      ⟨0, 0, 0, [Evento.info .avvio] ++ (leggiUtentiDaExcel d).2, []⟩ h
  rw [hs] at hs'
  cases hs'
  have hsum := contaDa_somma w (leggiUtentiDaExcel d).1 0
  simp only [Nat.zero_add] at h1 h2 h3
  refine ⟨_, hrun, h1, h2, ?_, ?_, ?_⟩
  · show s.errori = _
    omega
  · show rapporti (s.eventi ++ _) = _
    rw [hev]
    simp [rapporti_append, hrap, (leggi_eventi d).2.2.2, rapporti]
  · intro hmail hko
    have e0 : contaDa (emailRiuscita w) 0 (leggiUtentiDaExcel d).1 = 0 :=
      contaDa_eq_zero _ _ 0 (fun j u _ => by simp [emailRiuscita, inviaEmail, hko])
    have w0 : contaDa (whatsappRiuscito w) 0 (leggiUtentiDaExcel d).1 = 0 :=
      contaDa_eq_zero _ _ 0 (fun j u hu => by
        rw [whatsappRiuscito_eq]
        simp [hmail u hu])
    constructor
    · show s.emailInviate = 0
      omega
    · show s.errori = _
      omega

/-- The two scenarios of the specification: Ana, Bo, Cy with both transports accepting
gives one email, one message and one error, the error being Cy on an unsupported
channel; an all-email batch against a transport that rejects everything gives no
email sent and as many errors as records. -/
theorem scenari_contatori :
    (inviaNotificheMensili (discoCon [ana, bo, cy]) mondoOk).contatori = some (1, 1, 1) ∧
    (inviaNotificheMensili (discoCon [ana, bo, cy]) mondoOk).esiti =
      [.emailInviata, .whatsappInviato, .canaleNonSupportato] ∧
    (inviaNotificheMensili (discoCon [ana, soloEmail, canaleVuoto]) mondoEmailKo).contatori =
      some (0, 0, 3) := by
  decide

/-- C7 (evaluation at the failing input): in the batch Ana, a record with a numeric
channel cell, Bo, the counts the claim describes are one email, one message and one
error; the run instead ends with the exception raised by line 217 on the second record,
after counting Ana only: Bo is never processed and no counters are reported. -/
theorem C7_canale_numerico :
    contaDa (emailRiuscita mondoOk) 0 [ana, numerico, bo] = 1 ∧
    contaDa (whatsappRiuscito mondoOk) 0 [ana, numerico, bo] = 1 ∧
    (inviaNotificheMensili (discoCon [ana, numerico, bo]) mondoOk).contatori = none ∧
    (inviaNotificheMensili (discoCon [ana, numerico, bo]) mondoOk).esiti = [.emailInviata] ∧
    chiamateWhatsApp (inviaNotificheMensili (discoCon [ana, numerico, bo]) mondoOk).eventi = [] ∧
    rapporti (inviaNotificheMensili (discoCon [ana, numerico, bo]) mondoOk).eventi = [] := by
  decide

/-- C8 as stated fails: when the Excel file is missing the run stops at the early
`return`; no adapter is called and no delay is applied, but no summary is produced
either, so there is no all-zero report. -/
theorem C8_controesempio :
    (leggiUtentiDaExcel discoSenzaFile).1 = [] ∧
    inviaNotificheMensili discoSenzaFile mondoOk =
      .nessunUtente [.info .avvio, .errore .erroreLettura, .errore .nessunUtente] ∧
    (inviaNotificheMensili discoSenzaFile mondoOk).contatori = none ∧
    rapporti (inviaNotificheMensili discoSenzaFile mondoOk).eventi ≠ [(0, 0, 0)] := by
  decide

/-- C8 amended: when the Excel file or the configured sheet is missing,
`leggiUtentiDaExcel` logs the error and returns the empty list; and whenever the record
source yields the empty list, the run logs that no user was found and returns at once:
it calls neither `inviaEmail` nor `inviaWhatsApp`, applies no pacing delay, and logs no
report (the counters are never created). -/
theorem C8_sorgente_vuota (d : Disco) (w : Mondo) :
    ((d.existsSync = false ∨ d.readFile = none ∨
        ∃ wb, d.readFile = some wb ∧ sheetName ∉ wb.SheetNames) →
      leggiUtentiDaExcel d = ([], [.errore .erroreLettura])) ∧
    ((leggiUtentiDaExcel d).1 = [] →
      inviaNotificheMensili d w =
        .nessunUtente
          ([.info .avvio] ++ (leggiUtentiDaExcel d).2 ++ [.errore .nessunUtente]) ∧
      chiamateEmail (inviaNotificheMensili d w).eventi = [] ∧
      chiamateWhatsApp (inviaNotificheMensili d w).eventi = [] ∧
      pause (inviaNotificheMensili d w).eventi = [] ∧
      rapporti (inviaNotificheMensili d w).eventi = [] ∧
      (inviaNotificheMensili d w).contatori = none) := by
  constructor
  · intro h
    unfold leggiUtentiDaExcel
    rcases h with h | h | ⟨wb, h, hs⟩
    · simp [h]
    · simp [h]
    · cases d.existsSync <;> simp [h, hs]
  · intro h
    obtain ⟨l1, l2, l3, l4⟩ := leggi_eventi d
    rw [run_vuoto d w h]
    simp [Risultato.eventi, Risultato.contatori, chiamateEmail_append,
      chiamateWhatsApp_append, pause_append, rapporti_append, l1, l2, l3, l4,
      chiamateEmail, chiamateWhatsApp, pause, rapporti]

/-- Witness of C8: the file exists but has no sheet called `notifiche`. -/
theorem C8_sorgente_vuota_witness :
    (discoSenzaFoglio.existsSync = false ∨ discoSenzaFoglio.readFile = none ∨
      ∃ wb, discoSenzaFoglio.readFile = some wb ∧ sheetName ∉ wb.SheetNames) ∧
    leggiUtentiDaExcel discoSenzaFoglio = ([], [.errore .erroreLettura]) ∧
    (leggiUtentiDaExcel discoSenzaFoglio).1 = [] ∧
    inviaNotificheMensili discoSenzaFoglio mondoOk =
      .nessunUtente
        ([.info .avvio] ++ (leggiUtentiDaExcel discoSenzaFoglio).2 ++
          [.errore .nessunUtente]) :=
  ⟨Or.inr (Or.inr ⟨_, rfl, by decide⟩),
    (C8_sorgente_vuota discoSenzaFoglio mondoOk).1 (Or.inr (Or.inr ⟨_, rfl, by decide⟩)),
    by decide,
    ((C8_sorgente_vuota discoSenzaFoglio mondoOk).2 (by decide)).1⟩

/-- C9 as stated fails.  Se and Te are routed to a supported channel and lack the field
it needs: no delay follows Se although Te comes after, where the rule of the
specification gives one.  Moreover the delay is applied after Ana although she is the
last record, and after Cy although her channel is unsupported. -/
theorem C9_controesempio :
    (validazioneFallisce senzaEmail = true ∧ validazioneFallisce senzaTelefono = true ∧
      (inviaNotificheMensili (discoCon [senzaEmail, senzaTelefono]) mondoOk).esiti =
        [.validazioneFallita, .validazioneFallita] ∧
      pause (inviaNotificheMensili (discoCon [senzaEmail, senzaTelefono]) mondoOk).eventi = [] ∧
      pausePreviste [.validazioneFallita, .validazioneFallita] = 1) ∧
    (tentaInvio ana = true ∧
      (inviaNotificheMensili (discoCon [ana]) mondoOk).esiti = [.emailInviata] ∧
      pause (inviaNotificheMensili (discoCon [ana]) mondoOk).eventi = [300000] ∧
      pausePreviste [.emailInviata] = 0) ∧
    (canale cy = some "fax" ∧
      (inviaNotificheMensili (discoCon [cy, senzaEmail]) mondoOk).esiti =
        [.canaleNonSupportato, .validazioneFallita] ∧
      pause (inviaNotificheMensili (discoCon [cy, senzaEmail]) mondoOk).eventi = [300000] ∧
      pausePreviste [.canaleNonSupportato, .validazioneFallita] = 0) := by
  decide

/-! ### Runs over arbitrary batches -/

theorem canale_none_of_non_testo (u : Utente) (h : u.Canale.assenteOTesto = false) :
    canale u = none := by
  cases hc : u.Canale <;> simp [canale, hc, Cell.assenteOTesto] at h ⊢

theorem processabili_testuali (us : List Utente) :
    ∀ u ∈ processabili us, u.Canale.assenteOTesto = true := by
  intro u hu
  unfold processabili at hu
  have := List.mem_takeWhile_imp hu
  simpa using this

theorem processabili_append (pre post : List Utente) (u : Utente)
    (hpre : ∀ v ∈ pre, v.Canale.assenteOTesto = true) (hu : u.Canale.assenteOTesto = true) :
    processabili (pre ++ u :: post) = pre ++ u :: processabili post := by
  unfold processabili
  rw [List.takeWhile_append_of_pos hpre, List.takeWhile_cons]
  simp [hu]

theorem processabili_tutti (us : List Utente)
    (h : ∀ u ∈ us, u.Canale.assenteOTesto = true) : processabili us = us := by
  unfold processabili
  exact List.takeWhile_eq_self_iff.mpr h

/-- The loop processes the records before the first one with a channel cell that is
neither missing nor text, and stops there with the exception. -/
theorem ciclo_prefisso (w : Mondo) :
    ∀ (us : List Utente) (i : Nat) (s : Stato),
      ∃ s', ciclo w i (processabili us) s = .ok s' ∧
        ciclo w i us s =
          (if us.all (fun u => u.Canale.assenteOTesto) then .ok s' else .error s') := by
  intro us
  induction us with
  | nil =>
    intro i s
    exact ⟨s, rfl, rfl⟩
  | cons u r ih =>
    intro i s
    rcases Bool.eq_false_or_eq_true u.Canale.assenteOTesto with hu | hu
    · obtain ⟨e, nuovi, hstep, _⟩ := passo_spec w i u s hu
      obtain ⟨s', h1, h2⟩ := ih (i + 1) _
      refine ⟨s', ?_, ?_⟩
      · have : processabili (u :: r) = u :: processabili r := by
          unfold processabili
          rw [List.takeWhile_cons]
          simp [hu]
        rw [this, ciclo_cons_ok w i u _ s _ hstep, h1]
      · rw [ciclo_cons_ok w i u _ s _ hstep, h2]
        simp [hu]
    · refine ⟨s, ?_, ?_⟩
      · have : processabili (u :: r) = [] := by
          unfold processabili
          rw [List.takeWhile_cons]
          simp [hu]
        rw [this]
        rfl
      · simp [ciclo, processaUtente_eccezione w i u s (canale_none_of_non_testo u hu), hu]

theorem contaDa_append (p : Nat → Utente → Bool) :
    ∀ (a b : List Utente) (i : Nat),
      contaDa p i (a ++ b) = contaDa p i a + contaDa p (i + a.length) b := by
  intro a
  induction a with
  | nil => intro b i; simp [contaDa]
  | cons u r ih =>
    intro b i
    have hk : i + 1 + r.length = i + (r.length + 1) := by omega
    have := ih b (i + 1)
    rw [hk] at this
    show (if p i u then 1 else 0) + contaDa p (i + 1) (r ++ b) =
      ((if p i u then 1 else 0) + contaDa p (i + 1) r) + contaDa p (i + (r.length + 1)) b
    rw [this]
    omega

/-- A run over a non-empty batch ends with the variables the loop has after the
processable prefix: with the report when the whole batch was processable, with the
exception otherwise. -/
theorem run_generale (d : Disco) (w : Mondo) (hne : (leggiUtentiDaExcel d).1 ≠ []) :
    ∃ s, ciclo w 0 (processabili (leggiUtentiDaExcel d).1)
          ⟨0, 0, 0, [Evento.info .avvio] ++ (leggiUtentiDaExcel d).2, []⟩ = .ok s ∧
      inviaNotificheMensili d w =
        (if (leggiUtentiDaExcel d).1.all (fun u => u.Canale.assenteOTesto) then
          .completato { s with eventi := s.eventi ++
            [.info .completato,
             .info (.statistiche s.emailInviate s.whatsappInviati s.errori)] }
        else .eccezione s) := by
  obtain ⟨s, h1, h2⟩ := ciclo_prefisso w (leggiUtentiDaExcel d).1 0
    ⟨0, 0, 0, [Evento.info .avvio] ++ (leggiUtentiDaExcel d).2, []⟩
  refine ⟨s, h1, ?_⟩
  unfold inviaNotificheMensili
  simp only [List.length_eq_zero, hne, if_false]
  rw [h2]
  by_cases hall : (leggiUtentiDaExcel d).1.all (fun u => u.Canale.assenteOTesto) = true
  · simp only [hall, if_true]
  · simp only [hall, if_false]
    rfl

/-- A run over a batch `pre ++ u :: post` that reaches the record `u`: the final
variables are made of the contributions of the records before it, its own, and those of
the processable records after it. -/
theorem run_intorno (d : Disco) (w : Mondo) (pre post : List Utente) (u : Utente)
    (hd : (leggiUtentiDaExcel d).1 = pre ++ u :: post)
    (hpre : ∀ v ∈ pre, v.Canale.assenteOTesto = true)
    (hu : u.Canale.assenteOTesto = true) :
    ∃ s, (inviaNotificheMensili d w = .completato s ∨
          inviaNotificheMensili d w = .eccezione s) ∧
      ((∀ v ∈ post, v.Canale.assenteOTesto = true) →
        inviaNotificheMensili d w = .completato s) ∧
      s.emailInviate = contaDa (emailRiuscita w) 0 pre +
        (if emailRiuscita w pre.length u then 1 else 0) +
        contaDa (emailRiuscita w) (pre.length + 1) (processabili post) ∧
      s.whatsappInviati = contaDa (whatsappRiuscito w) 0 pre +
        (if whatsappRiuscito w pre.length u then 1 else 0) +
        contaDa (whatsappRiuscito w) (pre.length + 1) (processabili post) ∧
      s.errori = contaDa (erroreAtteso w) 0 pre +
        (if erroreAtteso w pre.length u then 1 else 0) +
        contaDa (erroreAtteso w) (pre.length + 1) (processabili post) ∧
      chiamateEmail s.eventi =
        argomentiEmail pre ++ argomentiEmail [u] ++ argomentiEmail (processabili post) ∧
      chiamateWhatsApp s.eventi =
        argomentiWhatsApp pre ++ argomentiWhatsApp [u] ++
          argomentiWhatsApp (processabili post) := by
  have hne : (leggiUtentiDaExcel d).1 ≠ [] := by simp [hd]
  obtain ⟨s, hs, hrun⟩ := run_generale d w hne
  have hproc : processabili (leggiUtentiDaExcel d).1 = pre ++ u :: processabili post := by
    rw [hd]
    exact processabili_append pre post u hpre hu
  obtain ⟨s', hs', h1, h2, h3, es, nuovi, _, _, hev, _, hce, hcw, hrap⟩ :=
    ciclo_spec w (processabili (leggiUtentiDaExcel d).1) 0
      ⟨0, 0, 0, [Evento.info .avvio] ++ (leggiUtentiDaExcel d).2, []⟩
      (processabili_testuali _)
  rw [hs] at hs'
  cases hs'
  obtain ⟨l1, l2, _, _⟩ := leggi_eventi d
  have c1 : s.emailInviate = contaDa (emailRiuscita w) 0 pre +
      (if emailRiuscita w pre.length u then 1 else 0) +
      contaDa (emailRiuscita w) (pre.length + 1) (processabili post) := by
    rw [h1, hproc, contaDa_append]
    simp only [contaDa, Nat.zero_add]
    omega
  have c2 : s.whatsappInviati = contaDa (whatsappRiuscito w) 0 pre +
      (if whatsappRiuscito w pre.length u then 1 else 0) +
      contaDa (whatsappRiuscito w) (pre.length + 1) (processabili post) := by
    rw [h2, hproc, contaDa_append]
    simp only [contaDa, Nat.zero_add]
    omega
  have c3 : s.errori = contaDa (erroreAtteso w) 0 pre +
      (if erroreAtteso w pre.length u then 1 else 0) +
      contaDa (erroreAtteso w) (pre.length + 1) (processabili post) := by
    have hfun : (fun j v => !(emailRiuscita w j v || whatsappRiuscito w j v)) =
        erroreAtteso w := rfl
    rw [h3, hfun, hproc, contaDa_append]
    simp only [contaDa, Nat.zero_add]
    omega
  have c4 : chiamateEmail s.eventi =
      argomentiEmail pre ++ argomentiEmail [u] ++ argomentiEmail (processabili post) := by
    rw [hev, chiamateEmail_append, chiamateEmail_append, hce, hproc, l1]
    simp [argomentiEmail, chiamateEmail, List.filter_append, List.filter_cons]
    split <;> simp
  have c5 : chiamateWhatsApp s.eventi =
      argomentiWhatsApp pre ++ argomentiWhatsApp [u] ++
        argomentiWhatsApp (processabili post) := by
    rw [hev, chiamateWhatsApp_append, chiamateWhatsApp_append, hcw, hproc, l2]
    simp [argomentiWhatsApp, chiamateWhatsApp, List.filter_append, List.filter_cons]
    split <;> simp
  by_cases hall : (leggiUtentiDaExcel d).1.all (fun u => u.Canale.assenteOTesto) = true
  · rw [if_pos hall] at hrun
    refine ⟨_, Or.inl hrun, fun _ => hrun, c1, c2, c3, ?_, ?_⟩
    · show chiamateEmail (s.eventi ++ _) = _
      rw [chiamateEmail_append, c4]
      simp [chiamateEmail]
    · show chiamateWhatsApp (s.eventi ++ _) = _
      rw [chiamateWhatsApp_append, c5]
      simp [chiamateWhatsApp]
  · rw [if_neg hall] at hrun
    refine ⟨s, Or.inr hrun, ?_, c1, c2, c3, c4, c5⟩
    intro hpost
    exfalso
    apply hall
    rw [hd]
    simp only [List.all_eq_true]
    intro v hv
    rcases List.mem_append.mp hv with hv | hv
    · exact hpre v hv
    · rcases List.mem_cons.mp hv with hv | hv
      · exact hv ▸ hu
      · exact hpost v hv

theorem pausaDelCodice_esitoAtteso (w : Mondo) (i : Nat) (u : Utente)
    (hu : u.Canale.assenteOTesto = true) :
    (validazioneFallisce u = true → pausaDelCodice (esitoAtteso w i u) = false) ∧
    (tentaInvio u = true → pausaDelCodice (esitoAtteso w i u) = true) := by
  obtain ⟨c, hc⟩ := canale_some_of_assenteOTesto u hu
  unfold validazioneFallisce tentaInvio esitoAtteso pausaDelCodice
  by_cases h1 : c = "email"
  · subst h1
    rcases Bool.eq_false_or_eq_true u.Email.truthy with he | he <;>
      rcases Bool.eq_false_or_eq_true (inviaEmail w i u.Email (nome u) (dati u)).1
        with hr | hr <;> simp [hc, he, hr]
  · by_cases h2 : c = "whatsapp"
    · subst h2
      rcases Bool.eq_false_or_eq_true u.Telefono.truthy with he | he <;>
        rcases Bool.eq_false_or_eq_true (inviaWhatsApp w i u.Telefono (nome u) (dati u)).1
          with hr | hr <;> simp [hc, he, hr]
    · simp [hc, h1, h2]

/-- The events of the loop are the concatenation of one segment per record, in order. -/
theorem ciclo_segmenti (w : Mondo) :
    ∀ (us : List Utente) (i : Nat) (s : Stato),
      (∀ u ∈ us, u.Canale.assenteOTesto = true) →
      ∃ (s' : Stato) (segs : List (List Evento)),
        ciclo w i us s = .ok s' ∧ s'.eventi = s.eventi ++ segs.flatten ∧
        segs.length = us.length ∧
        ∀ (k : Nat) (u : Utente) (seg : List Evento),
          us[k]? = some u → segs[k]? = some seg → segmentoDi w (i + k) u seg := by
  intro us
  induction us with
  | nil =>
    intro i s _
    exact ⟨s, [], rfl, by simp, rfl, by simp⟩
  | cons u resto ih =>
    intro i s h
    have hu : u.Canale.assenteOTesto = true := h u (List.mem_cons_self _ _)
    have hr : ∀ v ∈ resto, v.Canale.assenteOTesto = true :=
      fun v hv => h v (List.mem_cons_of_mem _ hv)
    obtain ⟨e, n1, hstep, hp, hce, hcw, hrap, hlast, he, hval⟩ := passo_spec w i u s hu
    obtain ⟨s', segs, hs', hev, hlen, hseg⟩ := ih (i + 1) _ hr
    refine ⟨s', n1 :: segs, ?_, ?_, ?_, ?_⟩
    · rw [ciclo_cons_ok w i u resto s _ hstep, hs']
    · rw [hev]
      simp
    · simp [hlen]
    · intro k v seg hk hsegk
      cases k with
      | zero =>
        simp only [List.getElem?_cons_zero, Option.some.injEq] at hk hsegk
        subst hk
        subst hsegk
        subst he
        refine ⟨hp, ?_, ?_, hrap, hlast, hval⟩
        · rw [hce]
          unfold argomentiEmail
          by_cases hk : canale u = some "email" ∧ u.Email.truthy = true
          · simp [List.filter_cons, hk]
          · simp [List.filter_cons, hk]
        · rw [hcw]
          unfold argomentiWhatsApp
          by_cases hk : canale u = some "whatsapp" ∧ u.Telefono.truthy = true
          · simp [List.filter_cons, hk]
          · simp [List.filter_cons, hk]
      | succ k =>
        simp only [List.getElem?_cons_succ] at hk hsegk
        have := hseg k v seg hk hsegk
        have hidx : i + 1 + k = i + (k + 1) := by omega
        rw [hidx] at this
        exact this

/-- A run that reaches a record for which neither adapter is called and which is not a
success: it adds one error, nothing else, and the records around it are processed. -/
theorem run_record_errore (d : Disco) (w : Mondo) (pre post : List Utente) (u : Utente)
    (hd : (leggiUtentiDaExcel d).1 = pre ++ u :: post)
    (hpre : ∀ v ∈ pre, v.Canale.assenteOTesto = true)
    (hu : u.Canale.assenteOTesto = true)
    (ha : argomentiEmail [u] = []) (hb : argomentiWhatsApp [u] = []) :
    ∃ s, (inviaNotificheMensili d w = .completato s ∨
          inviaNotificheMensili d w = .eccezione s) ∧
      ((∀ v ∈ post, v.Canale.assenteOTesto = true) →
        inviaNotificheMensili d w = .completato s) ∧
      s.errori = contaDa (erroreAtteso w) 0 pre + 1 +
        contaDa (erroreAtteso w) (pre.length + 1) (processabili post) ∧
      s.emailInviate = contaDa (emailRiuscita w) 0 pre +
        contaDa (emailRiuscita w) (pre.length + 1) (processabili post) ∧
      s.whatsappInviati = contaDa (whatsappRiuscito w) 0 pre +
        contaDa (whatsappRiuscito w) (pre.length + 1) (processabili post) ∧
      chiamateEmail s.eventi = argomentiEmail pre ++ argomentiEmail (processabili post) ∧
      chiamateWhatsApp s.eventi =
        argomentiWhatsApp pre ++ argomentiWhatsApp (processabili post) := by
  obtain ⟨s, h0, hc, h1, h2, h3, h4, h5⟩ := run_intorno d w pre post u hd hpre hu
  have he : emailRiuscita w pre.length u = false := by
    rw [emailRiuscita_eq]
    by_cases hk : canale u = some "email" ∧ u.Email.truthy = true
    · simp [argomentiEmail, List.filter_cons, hk] at ha
    · rcases Bool.eq_false_or_eq_true u.Email.truthy with ht | ht
      · have : canale u ≠ some "email" := fun hx => hk ⟨hx, ht⟩
        simp [this]
      · simp [ht]
  have hw : whatsappRiuscito w pre.length u = false := by
    rw [whatsappRiuscito_eq]
    by_cases hk : canale u = some "whatsapp" ∧ u.Telefono.truthy = true
    · simp [argomentiWhatsApp, List.filter_cons, hk] at hb
    · rcases Bool.eq_false_or_eq_true u.Telefono.truthy with ht | ht
      · have : canale u ≠ some "whatsapp" := fun hx => hk ⟨hx, ht⟩
        simp [this]
      · simp [ht]
  refine ⟨s, h0, hc, ?_, ?_, ?_, ?_, ?_⟩
  · rw [h3]
    simp [erroreAtteso, he, hw]
  · rw [h1]
    simp [he]
  · rw [h2]
    simp [hw]
  · rw [h4, ha]
    simp
  · rw [h5, hb]
    simp

/-- C3: a record routed to the email channel with a missing or empty email cell, or
routed to the chat channel with a missing or empty phone cell, makes the iteration log
the validation error and count one error, nothing else.  In a run of
`inviaNotificheMensili` over any batch `pre ++ u :: post` that reaches it, the final
counters are those of the records before it, plus one error for it, plus those of the
records after it (up to the end of the batch, or to the first record on which line
217 throws); the adapter calls of the run are those of the records before and after
it, none for the record itself. -/
theorem C3_campo_mancante (w : Mondo) (u : Utente)
    (h : (canale u = some "email" ∧ (u.Email = .absent ∨ u.Email = .str "")) ∨
         (canale u = some "whatsapp" ∧ (u.Telefono = .absent ∨ u.Telefono = .str ""))) :
    (∀ (i : Nat) (s : Stato), ∃ m, processaUtente w i u s =
      .ok { s with errori := s.errori + 1, eventi := s.eventi ++ [.errore m],
                   esiti := s.esiti ++ [.validazioneFallita] }) ∧
    (∀ (d : Disco) (pre post : List Utente),
      (leggiUtentiDaExcel d).1 = pre ++ u :: post →
      (∀ v ∈ pre, v.Canale.assenteOTesto = true) →
      ∃ s, (inviaNotificheMensili d w = .completato s ∨
            inviaNotificheMensili d w = .eccezione s) ∧
        ((∀ v ∈ post, v.Canale.assenteOTesto = true) →
          inviaNotificheMensili d w = .completato s) ∧
        s.errori = contaDa (erroreAtteso w) 0 pre + 1 +
          contaDa (erroreAtteso w) (pre.length + 1) (processabili post) ∧
        s.emailInviate = contaDa (emailRiuscita w) 0 pre +
          contaDa (emailRiuscita w) (pre.length + 1) (processabili post) ∧
        s.whatsappInviati = contaDa (whatsappRiuscito w) 0 pre +
          contaDa (whatsappRiuscito w) (pre.length + 1) (processabili post) ∧
        chiamateEmail s.eventi = argomentiEmail pre ++ argomentiEmail (processabili post) ∧
        chiamateWhatsApp s.eventi =
          argomentiWhatsApp pre ++ argomentiWhatsApp (processabili post)) := by
  have hdati : ∃ c, canale u = some c ∧ argomentiEmail [u] = [] ∧
      argomentiWhatsApp [u] = [] := by
    rcases h with ⟨hc, he⟩ | ⟨hc, he⟩
    · have ht : u.Email.truthy = false := by
        rcases he with he | he <;> simp [he, Cell.truthy]
      exact ⟨_, hc, by simp [argomentiEmail, List.filter_cons, ht],
        by simp [argomentiWhatsApp, List.filter_cons, hc]⟩
    · have ht : u.Telefono.truthy = false := by
        rcases he with he | he <;> simp [he, Cell.truthy]
      exact ⟨_, hc, by simp [argomentiEmail, List.filter_cons, hc],
        by simp [argomentiWhatsApp, List.filter_cons, ht]⟩
  obtain ⟨c, hc, ha, hb⟩ := hdati
  constructor
  · intro i s
    rcases h with ⟨hc, he⟩ | ⟨hc, he⟩
    · have ht : u.Email.truthy = false := by
        rcases he with he | he <;> simp [he, Cell.truthy]
      exact ⟨_, processaUtente_email_senza w i u s hc ht⟩
    · have ht : u.Telefono.truthy = false := by
        rcases he with he | he <;> simp [he, Cell.truthy]
      exact ⟨_, processaUtente_whatsapp_senza w i u s hc ht⟩
  · intro d pre post hd hpre
    exact run_record_errore d w pre post u hd hpre (assenteOTesto_of_canale u c hc) ha hb

/-- Witness of C3: an email-channel record without an address between Ana and Bo; the
run reports one email, one message and one error, and calls the adapters for Ana and
Bo only. -/
theorem C3_campo_mancante_witness :
    ((canale senzaEmail = some "email" ∧
        (senzaEmail.Email = .absent ∨ senzaEmail.Email = .str "")) ∨
      (canale senzaEmail = some "whatsapp" ∧
        (senzaEmail.Telefono = .absent ∨ senzaEmail.Telefono = .str ""))) ∧
    (inviaNotificheMensili (discoCon [ana, senzaEmail, bo]) mondoOk).contatori =
      some (1, 1, 1) ∧
    chiamateEmail (inviaNotificheMensili (discoCon [ana, senzaEmail, bo]) mondoOk).eventi =
      [(.str "ana@x.com", .str "Ana", .str "€50")] ∧
    chiamateWhatsApp (inviaNotificheMensili (discoCon [ana, senzaEmail, bo]) mondoOk).eventi =
      [(.str "391234567890", .str "Bo", .str "paid")] := by
  obtain ⟨s, _, hc, h1, h2, h3, h4, h5⟩ :=
    (C3_campo_mancante mondoOk senzaEmail (by decide)).2
      (discoCon [ana, senzaEmail, bo]) [ana] [bo] (by decide) (by decide)
  rw [hc (by decide)]
  refine ⟨by decide, ?_, ?_, ?_⟩
  · show some (s.emailInviate, s.whatsappInviati, s.errori) = _
    rw [h1, h2, h3]
    decide
  · show chiamateEmail s.eventi = _
    rw [h4]
    decide
  · show chiamateWhatsApp s.eventi = _
    rw [h5]
    decide

/-- C4: a record whose channel cell is a non-empty string that, lowercased, is neither
`email` nor `whatsapp`, makes the iteration take the unsupported-channel branch: one
error is counted and nothing else, and neither adapter is called, whatever the email
and phone cells hold.  In a run of `inviaNotificheMensili` over any batch
`pre ++ u :: post` that reaches it, the final counters are those of the records before
it, plus one error for it, plus those of the records after it, and the adapter calls
of the run are those of the records before and after it, none for the record itself. -/
theorem C4_canale_non_supportato (w : Mondo) (u : Utente) (t : String)
    (hc : u.Canale = .str t) (hne : t ≠ "")
    (h1 : toLowerCase t ≠ "email") (h2 : toLowerCase t ≠ "whatsapp") :
    (∀ (i : Nat) (s : Stato), ∃ s', processaUtente w i u s = .ok s' ∧
      s'.errori = s.errori + 1 ∧ s'.emailInviate = s.emailInviate ∧
      s'.whatsappInviati = s.whatsappInviati ∧
      s'.esiti = s.esiti ++ [.canaleNonSupportato] ∧
      chiamateEmail s'.eventi = chiamateEmail s.eventi ∧
      chiamateWhatsApp s'.eventi = chiamateWhatsApp s.eventi) ∧
    (∀ (d : Disco) (pre post : List Utente),
      (leggiUtentiDaExcel d).1 = pre ++ u :: post →
      (∀ v ∈ pre, v.Canale.assenteOTesto = true) →
      ∃ s, (inviaNotificheMensili d w = .completato s ∨
            inviaNotificheMensili d w = .eccezione s) ∧
        ((∀ v ∈ post, v.Canale.assenteOTesto = true) →
          inviaNotificheMensili d w = .completato s) ∧
        s.errori = contaDa (erroreAtteso w) 0 pre + 1 +
          contaDa (erroreAtteso w) (pre.length + 1) (processabili post) ∧
        s.emailInviate = contaDa (emailRiuscita w) 0 pre +
          contaDa (emailRiuscita w) (pre.length + 1) (processabili post) ∧
        s.whatsappInviati = contaDa (whatsappRiuscito w) 0 pre +
          contaDa (whatsappRiuscito w) (pre.length + 1) (processabili post) ∧
        chiamateEmail s.eventi = argomentiEmail pre ++ argomentiEmail (processabili post) ∧
        chiamateWhatsApp s.eventi =
          argomentiWhatsApp pre ++ argomentiWhatsApp (processabili post)) := by
  have hcan : canale u = some (toLowerCase t) := by
    rw [canale_testo u t hc]
    simp [hne]
  constructor
  · intro i s
    have hstep := processaUtente_altro w i u s (toLowerCase t) hcan h1 h2
    exact ⟨_, hstep, rfl, rfl, rfl, rfl,
      by simp [chiamateEmail_append, chiamateEmail],
      by simp [chiamateWhatsApp_append, chiamateWhatsApp]⟩
  · intro d pre post hd hpre
    exact run_record_errore d w pre post u hd hpre (assenteOTesto_of_canale u _ hcan)
      (by simp [argomentiEmail, List.filter_cons, hcan, h1])
      (by simp [argomentiWhatsApp, List.filter_cons, hcan, h2])

/-- Witness of C4: a record on the channel `FAX`, with an address and a phone number,
between Ana and Bo; the run reports one email, one message and one error, and calls
the adapters for Ana and Bo only. -/
theorem C4_canale_non_supportato_witness :
    fax.Canale = .str "FAX" ∧ fax.Email.truthy = true ∧ fax.Telefono.truthy = true ∧
    (inviaNotificheMensili (discoCon [ana, fax, bo]) mondoOk).contatori = some (1, 1, 1) ∧
    chiamateEmail (inviaNotificheMensili (discoCon [ana, fax, bo]) mondoOk).eventi =
      [(.str "ana@x.com", .str "Ana", .str "€50")] ∧
    chiamateWhatsApp (inviaNotificheMensili (discoCon [ana, fax, bo]) mondoOk).eventi =
      [(.str "391234567890", .str "Bo", .str "paid")] := by
  obtain ⟨s, _, hc, h1, h2, h3, h4, h5⟩ :=
    (C4_canale_non_supportato mondoOk fax "FAX" rfl (by decide) (by decide) (by decide)).2
      (discoCon [ana, fax, bo]) [ana] [bo] (by decide) (by decide)
  rw [hc (by decide)]
  refine ⟨rfl, by decide, by decide, ?_, ?_, ?_⟩
  · show some (s.emailInviate, s.whatsappInviati, s.errori) = _
    rw [h1, h2, h3]
    decide
  · show chiamateEmail s.eventi = _
    rw [h4]
    decide
  · show chiamateWhatsApp s.eventi = _
    rw [h5]
    decide

/-- C10: while the chat session is not ready (`whatsappClient` is `null` or has no
`info`), `inviaWhatsApp` returns `false` after logging the error, without reaching
`sendMessage`; the iteration on a chat-channel record with a phone number then counts
one error and no sent message.  In a run of `inviaNotificheMensili` that reaches such a
record while the session is not ready, the final counters are those of the records
before it, plus one error for it, plus those of the records after it: the record adds
nothing to `whatsappInviati`, although `inviaWhatsApp` was called for it. -/
theorem C10_sessione_non_pronta (w : Mondo) (i : Nat)
    (h : w.whatsappClient i = none ∨ ∃ c, w.whatsappClient i = some c ∧ c.info = false) :
    (∀ numero nome dati : Cell,
      inviaWhatsApp w i numero nome dati =
        (false, [.inviaWhatsApp numero nome dati, .errore (.erroreWhatsApp numero)]) ∧
      chiamateSendMessage (inviaWhatsApp w i numero nome dati).2 = []) ∧
    (∀ (u : Utente) (s : Stato),
      canale u = some "whatsapp" → u.Telefono.truthy = true →
      ∃ s', processaUtente w i u s = .ok s' ∧
        s'.errori = s.errori + 1 ∧ s'.whatsappInviati = s.whatsappInviati ∧
        s'.emailInviate = s.emailInviate ∧ s'.esiti = s.esiti ++ [.invioFallito] ∧
        chiamateSendMessage s'.eventi = chiamateSendMessage s.eventi) ∧
    (∀ (d : Disco) (pre post : List Utente) (u : Utente),
      (leggiUtentiDaExcel d).1 = pre ++ u :: post → pre.length = i →
      (∀ v ∈ pre, v.Canale.assenteOTesto = true) →
      canale u = some "whatsapp" → u.Telefono.truthy = true →
      ∃ s, (inviaNotificheMensili d w = .completato s ∨
            inviaNotificheMensili d w = .eccezione s) ∧
        ((∀ v ∈ post, v.Canale.assenteOTesto = true) →
          inviaNotificheMensili d w = .completato s) ∧
        s.errori = contaDa (erroreAtteso w) 0 pre + 1 +
          contaDa (erroreAtteso w) (pre.length + 1) (processabili post) ∧
        s.whatsappInviati = contaDa (whatsappRiuscito w) 0 pre +
          contaDa (whatsappRiuscito w) (pre.length + 1) (processabili post) ∧
        s.emailInviate = contaDa (emailRiuscita w) 0 pre +
          contaDa (emailRiuscita w) (pre.length + 1) (processabili post) ∧
        chiamateWhatsApp s.eventi =
          argomentiWhatsApp pre ++ [(u.Telefono, nome u, dati u)] ++
            argomentiWhatsApp (processabili post)) := by
  have hn : nonPronto (w.whatsappClient i) = true := by
    rcases h with h | ⟨c, h, hi⟩
    · simp [h, nonPronto]
    · simp [h, nonPronto, hi]
  have hcall : ∀ numero nome dati : Cell,
      inviaWhatsApp w i numero nome dati =
        (false, [.inviaWhatsApp numero nome dati, .errore (.erroreWhatsApp numero)]) := by
    intro numero nome dati
    simp [inviaWhatsApp, hn]
  refine ⟨fun a b c => ⟨hcall a b c, by rw [hcall]; rfl⟩, ?_, ?_⟩
  · intro u s hc ht
    have hr : (inviaWhatsApp w i u.Telefono (nome u) (dati u)).1 = false := by
      rw [hcall]
    have hstep := processaUtente_whatsapp_ko w i u s hc ht hr
    refine ⟨_, hstep, rfl, rfl, rfl, rfl, ?_⟩
    simp [chiamateSendMessage_append, hcall, chiamateSendMessage]
  · intro d pre post u hd hlen hpre hc ht
    subst hlen
    obtain ⟨s, h0, hcomp, k1, k2, k3, _, k5⟩ :=
      run_intorno d w pre post u hd hpre (assenteOTesto_of_canale u _ hc)
    have he : emailRiuscita w pre.length u = false := by
      rw [emailRiuscita_eq]
      simp [hc]
    have hw : whatsappRiuscito w pre.length u = false := by
      rw [whatsappRiuscito_eq, hcall]
      simp
    refine ⟨s, h0, hcomp, ?_, ?_, ?_, ?_⟩
    · rw [k3]
      simp [erroreAtteso, he, hw]
    · rw [k2]
      simp [hw]
    · rw [k1]
      simp [he]
    · rw [k5]
      simp [argomentiWhatsApp, List.filter_cons, hc, ht]

/-- Witness of C10: the chat client was never created and Bo, a chat record with a
phone number, stands between Ana and Cy; the run reports one email, no message and two
errors (Bo and Cy), `inviaWhatsApp` having been called once. -/
theorem C10_sessione_non_pronta_witness :
    (mondoSenzaChat.whatsappClient 1 = none ∨
      ∃ c, mondoSenzaChat.whatsappClient 1 = some c ∧ c.info = false) ∧
    canale bo = some "whatsapp" ∧ bo.Telefono.truthy = true ∧
    (inviaNotificheMensili (discoCon [ana, bo, cy]) mondoSenzaChat).contatori =
      some (1, 0, 2) ∧
    chiamateWhatsApp (inviaNotificheMensili (discoCon [ana, bo, cy]) mondoSenzaChat).eventi =
      [(.str "391234567890", .str "Bo", .str "paid")] ∧
    chiamateSendMessage
      (inviaWhatsApp mondoSenzaChat 1 (.str "391234567890") (.str "Bo") (.str "paid")).2 =
      [] := by
  obtain ⟨s, _, hc, h1, h2, h3, h4⟩ :=
    (C10_sessione_non_pronta mondoSenzaChat 1 (Or.inl rfl)).2.2
      (discoCon [ana, bo, cy]) [ana] [cy] bo (by decide) rfl (by decide) (by decide)
      (by decide)
  rw [hc (by decide)]
  refine ⟨Or.inl rfl, by decide, by decide, ?_, ?_,
    ((C10_sessione_non_pronta mondoSenzaChat 1 (Or.inl rfl)).1 _ _ _).2⟩
  · show some (s.emailInviate, s.whatsappInviati, s.errori) = _
    rw [h1, h2, h3]
    decide
  · show chiamateWhatsApp s.eventi = _
    rw [h4]
    decide

/-- C9 amended: the events of a run are the opening log lines, then one segment per
processed record in source order, then the closing lines, and only the segments hold
pacing delays.  The segment of a record whose outcome is Sent or TransportFailed (an
adapter was called for it) and that is not the last record of the batch holds exactly
one delay, of 300000 ms, as its last event, so that it stands between that record's
send and the next record; the segment of a record whose outcome is ValidationFailed is
the validation error alone, with no delay.  Nothing is stated about a delay after a
record on an unsupported channel or after the last record. -/
theorem C9_pausa (d : Disco) (w : Mondo) (hne : (leggiUtentiDaExcel d).1 ≠ []) :
    ∃ (s : Stato) (segs : List (List Evento)) (fine : List Evento),
      (inviaNotificheMensili d w = .completato s ∨
        inviaNotificheMensili d w = .eccezione s) ∧
      s.eventi = [Evento.info .avvio] ++ (leggiUtentiDaExcel d).2 ++ segs.flatten ++ fine ∧
      pause ([Evento.info .avvio] ++ (leggiUtentiDaExcel d).2) = [] ∧
      pause fine = [] ∧
      segs.length = (processabili (leggiUtentiDaExcel d).1).length ∧
      ∀ (k : Nat) (u : Utente) (seg : List Evento),
        (processabili (leggiUtentiDaExcel d).1)[k]? = some u → segs[k]? = some seg →
        chiamateEmail seg = argomentiEmail [u] ∧
        chiamateWhatsApp seg = argomentiWhatsApp [u] ∧
        (validazioneFallisce u = true → (∃ m, seg = [.errore m]) ∧ pause seg = []) ∧
        (tentaInvio u = true → k + 1 < (leggiUtentiDaExcel d).1.length →
          pause seg = [300000] ∧ seg.getLast? = some (.pausa 300000)) := by
  obtain ⟨s, hs, hrun⟩ := run_generale d w hne
  obtain ⟨s', segs, hs', hev, hlen, hseg⟩ :=
    ciclo_segmenti w (processabili (leggiUtentiDaExcel d).1) 0
      ⟨0, 0, 0, [Evento.info .avvio] ++ (leggiUtentiDaExcel d).2, []⟩
      (processabili_testuali _)
  rw [hs] at hs'
  cases hs'
  have hpre : pause ([Evento.info .avvio] ++ (leggiUtentiDaExcel d).2) = [] := by
    simp [pause_append, (leggi_eventi d).2.2.1, pause]
  have hsegs : ∀ (k : Nat) (u : Utente) (seg : List Evento),
      (processabili (leggiUtentiDaExcel d).1)[k]? = some u → segs[k]? = some seg →
      chiamateEmail seg = argomentiEmail [u] ∧
      chiamateWhatsApp seg = argomentiWhatsApp [u] ∧
      (validazioneFallisce u = true → (∃ m, seg = [.errore m]) ∧ pause seg = []) ∧
      (tentaInvio u = true → k + 1 < (leggiUtentiDaExcel d).1.length →
        pause seg = [300000] ∧ seg.getLast? = some (.pausa 300000)) := by
    intro k u seg hk hsk
    obtain ⟨hp, hce, hcw, _, hlast, hval⟩ := hseg k u seg hk hsk
    have hu : u.Canale.assenteOTesto = true :=
      processabili_testuali _ u (List.getElem?_mem hk)
    obtain ⟨q1, q2⟩ := pausaDelCodice_esitoAtteso w (0 + k) u hu
    refine ⟨hce, hcw, ?_, ?_⟩
    · intro hv
      refine ⟨hval (q1 hv), ?_⟩
      rw [hp, q1 hv]
      rfl
    · intro ht _
      refine ⟨?_, ?_⟩
      · rw [hp, q2 ht]
        rfl
      · exact hlast (q2 ht)
  by_cases hall : (leggiUtentiDaExcel d).1.all (fun u => u.Canale.assenteOTesto) = true
  · rw [if_pos hall] at hrun
    refine ⟨_, segs, [.info .completato,
      .info (.statistiche s.emailInviate s.whatsappInviati s.errori)],
      Or.inl hrun, ?_, hpre, by simp [pause], hlen, hsegs⟩
    show s.eventi ++ _ = _
    rw [hev]
  · rw [if_neg hall] at hrun
    exact ⟨s, segs, [], Or.inr hrun, by rw [hev]; simp, hpre, rfl, hlen, hsegs⟩

/-- Witness of C9: Ana is sent and is not last, so one delay follows her; the two
records after her fail validation, so no delay follows them. -/
theorem C9_pausa_witness :
    (leggiUtentiDaExcel (discoCon [ana, senzaEmail, senzaTelefono])).1 ≠ [] ∧
    tentaInvio ana = true ∧ validazioneFallisce senzaEmail = true ∧
    validazioneFallisce senzaTelefono = true ∧
    pause (inviaNotificheMensili (discoCon [ana, senzaEmail, senzaTelefono]) mondoOk).eventi =
      [300000] := by
  obtain ⟨s, segs, fine, hrun, hev, hpre, hfine, hlen, hseg⟩ :=
    C9_pausa (discoCon [ana, senzaEmail, senzaTelefono]) mondoOk (by decide)
  have hE : (inviaNotificheMensili (discoCon [ana, senzaEmail, senzaTelefono])
      mondoOk).eventi = s.eventi := by
    rcases hrun with h | h <;> rw [h] <;> rfl
  have hl : segs.length = 3 := by
    rw [hlen]
    decide
  obtain ⟨a, b, c, rfl⟩ := List.length_eq_three.mp hl
  have ha := (hseg 0 ana a (by decide) rfl).2.2.2 (by decide) (by decide)
  have hb := ((hseg 1 senzaEmail b (by decide) rfl).2.2.1 (by decide)).2
  have hc := ((hseg 2 senzaTelefono c (by decide) rfl).2.2.1 (by decide)).2
  refine ⟨by decide, by decide, by decide, by decide, ?_⟩
  rw [hE, hev, pause_append, pause_append, hpre, hfine]
  simp [pause_append, ha.1, hb, hc]

end Notifiche
